import Mathlib

/-!
Verification of the Privy privacy-decision engine (Python, `server/app`).

The Python services are shallowly embedded: every stateful service becomes a
Lean structure holding its in-memory stores, and each Python method becomes a
pure function from the old state (plus the current time, passed explicitly in
hours as a rational number) to a result and the new state.  Python `dict`s are
modelled as association lists with insert-or-overwrite-in-place semantics,
Python floats as exact rationals, and `datetime` values as rational hour
counts, so that every definition is executable and every concrete scenario can
be settled by `decide`.
-/

namespace Privy

/-! ## Kernel-computable rational arithmetic

The Batteries implementations of `Rat.add`, `Rat.sub`, `Rat.mul`, `Rat.inv`
are marked `@[irreducible]`, so `decide` cannot evaluate them on concrete
scenarios.  The model therefore uses the wrappers below, built from
`Rat.divInt` (which does reduce); each is proved equal to the corresponding
standard operation, so the general theorems can still use ordinary algebra. -/

/-- Exact rational addition, kernel-computable. -/
def qAdd (a b : ℚ) : ℚ :=
  Rat.divInt (a.num * (b.den : ℤ) + b.num * (a.den : ℤ))
    ((a.den : ℤ) * (b.den : ℤ))

/-- Exact rational subtraction, kernel-computable. -/
def qSub (a b : ℚ) : ℚ :=
  Rat.divInt (a.num * (b.den : ℤ) - b.num * (a.den : ℤ))
    ((a.den : ℤ) * (b.den : ℤ))

/-- Exact rational multiplication, kernel-computable. -/
def qMul (a b : ℚ) : ℚ :=
  Rat.divInt (a.num * b.num) ((a.den : ℤ) * (b.den : ℤ))

/-- Exact rational division, kernel-computable (0 when the divisor is 0,
matching `x / 0 = 0` on `ℚ`). -/
def qDiv (a b : ℚ) : ℚ :=
  Rat.divInt (a.num * (b.den : ℤ)) ((a.den : ℤ) * b.num)

/-- Python `dict.get`: first binding for the key, scanning left to right. -/
def dictGet {α : Type} (m : List (String × α)) (k : String) : Option α :=
  match m with
  | [] => none
  | (k', v) :: rest => if k' = k then some v else dictGet rest k

/-- Python `d[k] = v`: overwrite in place if the key exists, else append. -/
def dictSet {α : Type} (m : List (String × α)) (k : String) (v : α) :
    List (String × α) :=
  match m with
  | [] => [(k, v)]
  | (k', v') :: rest =>
      if k' = k then (k, v) :: rest else (k', v') :: dictSet rest k v

/-- Python `del d[k]`: remove the first binding for the key. -/
def dictErase {α : Type} (m : List (String × α)) (k : String) :
    List (String × α) :=
  match m with
  | [] => []
  | (k', v') :: rest =>
      if k' = k then rest else (k', v') :: dictErase rest k

/-! ## Privacy Budget service (`services/privacy_budget.py`) -/

/-- `alert_level` values stored in a budget account. -/
inductive AlertLevel where
  | normal
  | warning
  | critical
  | exhausted
deriving DecidableEq, Repr

/-- One per-subject budget record (`self.budgets[subject_id]`).
`custom_reset_hours` is present only on accounts written by
`set_custom_budget`; `_get_or_create_budget` never reads it. -/
structure BudgetAccount where
  total_budget : ℚ
  remaining_budget : ℚ
  window_start : ℚ
  queries_count : ℕ
  last_query : Option ℚ
  alert_level : AlertLevel
  custom_reset_hours : Option ℕ
deriving DecidableEq, Repr

/-- `DEFAULT_EPSILON_BUDGET = 1.0`. -/
def DEFAULT_EPSILON_BUDGET : ℚ := 1

/-- `BUDGET_RESET_HOURS = 24`. -/
def BUDGET_RESET_HOURS : ℚ := 24

/-- The account freshly inserted by `_get_or_create_budget`. -/
def freshAccount (now : ℚ) : BudgetAccount :=
  { total_budget := DEFAULT_EPSILON_BUDGET
    remaining_budget := DEFAULT_EPSILON_BUDGET
    window_start := now
    queries_count := 0
    last_query := none
    alert_level := .normal
    custom_reset_hours := none }

/-- The account written by `set_custom_budget`. -/
def customAccount (now : ℚ) (epsilon_budget : ℚ) (reset_hours : ℕ) :
    BudgetAccount :=
  { total_budget := epsilon_budget
    remaining_budget := epsilon_budget
    window_start := now
    queries_count := 0
    last_query := none
    alert_level := .normal
    custom_reset_hours := some reset_hours }

/-- The lazy window roll inside `_get_or_create_budget`: reset when
`utcnow() > window_start + timedelta(hours=BUDGET_RESET_HOURS)`.  The constant
24 is used for every account; `custom_reset_hours` is not consulted. -/
def rollIfElapsed (now : ℚ) (b : BudgetAccount) : BudgetAccount :=
  if qAdd b.window_start BUDGET_RESET_HOURS < now then
    { b with
        remaining_budget := b.total_budget
        window_start := now
        queries_count := 0
        alert_level := .normal }
  else b

/-- `QUERY_EPSILON_COSTS`: base epsilon cost per query type and sensitivity. -/
def QUERY_EPSILON_COSTS : List (String × List (String × ℚ)) :=
  [ ("aggregate",
      [("low", mkRat 1 100), ("medium", mkRat 5 100), ("high", mkRat 1 10)]),
    ("individual",
      [("low", mkRat 1 10), ("medium", mkRat 1 4), ("high", mkRat 1 2)]),
    ("raw",
      [("low", mkRat 3 10), ("medium", mkRat 1 2), ("high", 1)]) ]

/-- `QUERY_EPSILON_COSTS.get(query_type, {}).get(data_sensitivity, 0.25)`. -/
def baseCost (query_type data_sensitivity : String) : ℚ :=
  dictGet ((dictGet QUERY_EPSILON_COSTS query_type).getD [])
      data_sensitivity |>.getD (mkRat 1 4)

/-- `calculate_query_cost`.  The source scales by `1 + math.log(n)/10` when
`num_records > 1`; `math.log` is a floating-point transcendental outside the
embedding, so its value is taken as the explicit argument `lnNumRecords`
(irrelevant whenever `num_records ≤ 1`, which covers every claim below). -/
def calculate_query_cost (query_type data_sensitivity : String)
    (num_records : ℕ) (lnNumRecords : ℚ) : ℚ :=
  let base := baseCost query_type data_sensitivity
  if 1 < num_records then qMul base (qAdd 1 (qDiv lnNumRecords 10)) else base

/-- One entry of `self.query_history[subject_id]` (`_log_query`). -/
structure QueryLogEntry where
  timestamp : ℚ
  requester_id : String
  cost : ℚ
  allowed : Bool
  reason : String
  purpose : String
deriving DecidableEq, Repr

/-- Whole-service state of `PrivacyBudgetManager`. -/
structure BudgetState where
  budgets : List (String × BudgetAccount)
  query_history : List (String × List QueryLogEntry)
  blocked_requesters : List (String × ℚ)
deriving DecidableEq, Repr

/-- The empty manager built by `PrivacyBudgetManager.__init__`. -/
def initBudgetState : BudgetState := ⟨[], [], []⟩

/-- `_get_or_create_budget`: insert a fresh account if absent, then apply the
lazy window roll; returns the account and the updated `budgets` store (the
source mutates the stored dict through the returned reference). -/
def getOrCreateBudget (now : ℚ) (budgets : List (String × BudgetAccount))
    (subject_id : String) : BudgetAccount × List (String × BudgetAccount) :=
  let b0 := (dictGet budgets subject_id).getD (freshAccount now)
  let b := rollIfElapsed now b0
  (b, dictSet budgets subject_id b)

/-- `history[-1000:]`: keep only the last 1000 entries (FIFO eviction). -/
def capLast1000 (l : List QueryLogEntry) : List QueryLogEntry :=
  if 1000 < l.length then l.drop (l.length - 1000) else l

/-- `_log_query`: append one entry, then keep only the last 1000 (FIFO). -/
def logQuery (st : BudgetState) (now : ℚ) (subject_id requester_id : String)
    (cost : ℚ) (allowed : Bool) (reason purpose : String) : BudgetState :=
  let old := (dictGet st.query_history subject_id).getD []
  let kept := capLast1000 (old ++
    [⟨now, requester_id, cost, allowed, reason, purpose⟩])
  { st with query_history := dictSet st.query_history subject_id kept }

/-- Caller-visible result of `check_and_consume_budget`.  `alert_level` is
absent (`none`) on the requester-blocked branch, whose response dict carries
no such key; ISO-timestamp and percentage presentation fields are omitted. -/
structure BudgetResult where
  allowed : Bool
  reason : String
  budget_remaining : ℚ
  alert_level : Option AlertLevel
  query_cost : Option ℚ
deriving DecidableEq, Repr

/-- Reason string of the exhausted branch (an f-string over the subject id,
the query cost and the remaining budget; the `:.4f` float rendering is
abstracted by `toString` on exact rationals). -/
def exhaustedReason (subject_id : String) (query_cost remaining : ℚ) :
    String :=
  "Privacy budget exhausted for subject " ++ subject_id ++
    ". Required: " ++ toString query_cost ++ " eps, Available: " ++
    toString remaining ++ " eps"

/-- Reason string of the allow branch. -/
def consumedReason (query_cost : ℚ) : String :=
  "Query allowed. Budget consumed: " ++ toString query_cost ++ " eps"

/-- Core of the consume step of `check_and_consume_budget`, acting on one
account: deny (setting `alert_level = "exhausted"`) when
`remaining_budget < query_cost`, else subtract the cost, bump the counters and
recompute the alert level from `remaining/total`.  In the recompute, a ratio
of at least 0.3 leaves the previous `alert_level` in place (there is no `else`
arm).  When `total_budget = 0` the source raises `ZeroDivisionError` on the
allow path; rational division yields ratio 0 there, a case no theorem below
relies on. -/
def consumeOnAccount (now : ℚ) (query_cost : ℚ) (b : BudgetAccount) :
    Bool × BudgetAccount :=
  if b.remaining_budget < query_cost then
    (false, { b with alert_level := .exhausted })
  else
    let rem := qSub b.remaining_budget query_cost
    let ratio := qDiv rem b.total_budget
    let lvl : AlertLevel :=
      if ratio < mkRat 1 10 then .critical
      else if ratio < mkRat 3 10 then .warning
      else b.alert_level
    (true,
      { b with
          remaining_budget := rem
          queries_count := b.queries_count + 1
          last_query := some now
          alert_level := lvl })

/-- `check_and_consume_budget`. -/
def check_and_consume_budget (now : ℚ) (st : BudgetState)
    (subject_id requester_id : String)
    (query_type data_sensitivity : String) (num_records : ℕ)
    (lnNumRecords : ℚ) (purpose : String) : BudgetResult × BudgetState :=
  match dictGet st.blocked_requesters requester_id with
  | some block_until =>
      if now < block_until then
        (⟨false, "Requester temporarily blocked for privacy budget abuse",
            0, none, none⟩, st)
      else
        let st' := { st with
          blocked_requesters := dictErase st.blocked_requesters requester_id }
        checkAfterBlock now st' subject_id requester_id query_type
          data_sensitivity num_records lnNumRecords purpose
  | none =>
      checkAfterBlock now st subject_id requester_id query_type
        data_sensitivity num_records lnNumRecords purpose
where
  /-- The body after the requester-block check. -/
  checkAfterBlock (now : ℚ) (st : BudgetState)
      (subject_id requester_id : String)
      (query_type data_sensitivity : String) (num_records : ℕ)
      (lnNumRecords : ℚ) (purpose : String) : BudgetResult × BudgetState :=
    let p := getOrCreateBudget now st.budgets subject_id
    let b := p.1
    let query_cost :=
      calculate_query_cost query_type data_sensitivity num_records
        lnNumRecords
    let q := consumeOnAccount now query_cost b
    let b' := q.2
    let st1 := { st with budgets := dictSet p.2 subject_id b' }
    if q.1 then
      let st2 := logQuery st1 now subject_id requester_id query_cost true
        "Budget consumed" purpose
      (⟨true, consumedReason query_cost, b'.remaining_budget,
          some b'.alert_level, some query_cost⟩, st2)
    else
      let st2 := logQuery st1 now subject_id requester_id query_cost false
        "Budget exhausted" purpose
      (⟨false, exhaustedReason subject_id query_cost b.remaining_budget,
          b.remaining_budget, some .exhausted, some query_cost⟩, st2)

/-- `set_custom_budget`: replaces the subject's account wholesale. -/
def set_custom_budget (now : ℚ) (st : BudgetState) (subject_id : String)
    (epsilon_budget : ℚ) (reset_hours : ℕ) : BudgetState :=
  { st with
      budgets := dictSet st.budgets subject_id
        (customAccount now epsilon_budget reset_hours) }

/-! ## Policy engine (`services/policy_engine.py`) -/

/-- The inbound request shape shared by both gateway endpoints
(`schemas/request_schema.py`, `DataAccessRequest`). -/
structure AccessRequest where
  requester_id : String
  role : String
  purpose : String
  location : String
  data_sensitivity : String
deriving DecidableEq, Repr

def VALID_PURPOSES : List String :=
  ["analytics", "research", "compliance", "audit", "reporting",
    "operational", "marketing", "security"]

def VALID_JURISDICTIONS : List String :=
  ["US", "EU", "UK", "APAC", "LATAM", "GLOBAL"]

/-- One row of `ROLE_PERMISSIONS`. -/
structure RolePerms where
  purposes : List String
  jurisdictions : List String
  max_sensitivity : String
deriving DecidableEq, Repr

def ROLE_PERMISSIONS : List (String × RolePerms) :=
  [ ("admin", ⟨VALID_PURPOSES, VALID_JURISDICTIONS, "high"⟩),
    ("analyst",
      ⟨["analytics", "research", "reporting"], ["US", "EU", "UK"], "medium"⟩),
    ("external", ⟨["reporting"], ["US"], "low"⟩) ]

def SENSITIVITY_LEVELS : List (String × ℕ) :=
  [("low", 1), ("medium", 2), ("high", 3)]

/-- The per-check booleans of a policy verdict. -/
structure PolicyChecks where
  role_valid : Bool
  purpose_allowed : Bool
  jurisdiction_allowed : Bool
  sensitivity_allowed : Bool
deriving DecidableEq, Repr

structure PolicyResult where
  allowed : Bool
  reason : String
  checks : PolicyChecks
deriving DecidableEq, Repr

/-- `PolicyEngine.evaluate_policy`: the first failing check short-circuits. -/
def evaluate_policy (req : AccessRequest) : PolicyResult :=
  match dictGet ROLE_PERMISSIONS req.role with
  | none =>
      ⟨false, "Invalid role: " ++ req.role, ⟨false, false, false, false⟩⟩
  | some role_perms =>
      if req.purpose ∉ VALID_PURPOSES then
        ⟨false, "Invalid purpose: " ++ req.purpose,
          ⟨true, false, false, false⟩⟩
      else if req.purpose ∉ role_perms.purposes then
        ⟨false, "Purpose " ++ req.purpose ++ " not allowed for role " ++
            req.role,
          ⟨true, false, false, false⟩⟩
      else if req.location ∉ VALID_JURISDICTIONS then
        ⟨false, "Invalid jurisdiction: " ++ req.location,
          ⟨true, true, false, false⟩⟩
      else if req.location ∉ role_perms.jurisdictions then
        ⟨false, "Access from jurisdiction " ++ req.location ++
            " not allowed for role " ++ req.role,
          ⟨true, true, false, false⟩⟩
      else
        match dictGet SENSITIVITY_LEVELS req.data_sensitivity with
        | none =>
            ⟨false, "Invalid sensitivity level: " ++ req.data_sensitivity,
              ⟨true, true, true, false⟩⟩
        | some lvl =>
            if (dictGet SENSITIVITY_LEVELS role_perms.max_sensitivity).getD 0
                < lvl then
              ⟨false, "Data sensitivity " ++ req.data_sensitivity ++
                  " exceeds maximum allowed " ++ role_perms.max_sensitivity ++
                  " for role " ++ req.role,
                ⟨true, true, true, false⟩⟩
            else
              ⟨true, "All policy checks passed", ⟨true, true, true, true⟩⟩

/-! ## Risk engine (`services/risk_engine.py`) -/

def ROLE_RISK_WEIGHTS : List (String × ℚ) :=
  [("admin", mkRat 1 10), ("analyst", mkRat 3 10), ("external", mkRat 7 10)]

def SENSITIVITY_RISK_WEIGHTS : List (String × ℚ) :=
  [("low", mkRat 1 10), ("medium", mkRat 1 2), ("high", mkRat 9 10)]

def PURPOSE_RISK_WEIGHTS : List (String × ℚ) :=
  [ ("audit", mkRat 1 10), ("compliance", mkRat 1 10),
    ("security", mkRat 2 10), ("operational", mkRat 3 10),
    ("analytics", mkRat 4 10), ("research", mkRat 5 10),
    ("reporting", mkRat 5 10), ("marketing", mkRat 8 10) ]

def JURISDICTION_RISK_WEIGHTS : List (String × ℚ) :=
  [ ("US", mkRat 2 10), ("EU", mkRat 2 10), ("UK", mkRat 2 10),
    ("APAC", mkRat 4 10), ("LATAM", mkRat 5 10), ("GLOBAL", mkRat 6 10) ]

/-- `settings.risk_threshold` default (`core/config.py`). -/
def RISK_THRESHOLD : ℚ := mkRat 7 10

/-- `round(q + 1/2)` towards negative infinity, i.e. `⌊q + 1/2⌋`.  Python's
`round` is half-to-even; the two differ only at exact half-ulps, which the
fixed one-decimal weight tables never produce at three decimals. -/
def qRoundHalfUp (q : ℚ) : ℤ :=
  Int.fdiv (2 * q.num + (q.den : ℤ)) (2 * (q.den : ℤ))

/-- `round(x, 3)`. -/
def roundTo3 (q : ℚ) : ℚ :=
  Rat.divInt (qRoundHalfUp (qMul q 1000)) 1000

/-- `calculate_risk_score`: fixed weighted sum clamped into `[0, 1]`. -/
def calculate_risk_score (role_score sensitivity_score purpose_score
    jurisdiction_score : ℚ) : ℚ :=
  let total :=
    qAdd (qAdd (qAdd (qMul role_score (mkRat 1 4))
            (qMul sensitivity_score (mkRat 7 20)))
          (qMul purpose_score (mkRat 1 4)))
      (qMul jurisdiction_score (mkRat 3 20))
  min 1 (max 0 total)

/-- `get_risk_level` bands. -/
def get_risk_level (risk_score : ℚ) : String :=
  if risk_score < mkRat 3 10 then "low"
  else if risk_score < mkRat 3 5 then "medium"
  else "high"

structure RiskResult where
  risk_score : ℚ
  risk_level : String
  exceeds_threshold : Bool
  role_risk : ℚ
  sensitivity_risk : ℚ
  purpose_risk : ℚ
  jurisdiction_risk : ℚ
  threshold : ℚ
deriving DecidableEq, Repr

/-- `RiskEngine.assess_risk`: unknown categorical values default to weight
0.5; the reported `risk_score` is rounded to three decimals, while the
threshold flag and the level use the unrounded score. -/
def assess_risk (req : AccessRequest) : RiskResult :=
  let role_score := (dictGet ROLE_RISK_WEIGHTS req.role).getD (mkRat 1 2)
  let sensitivity_score :=
    (dictGet SENSITIVITY_RISK_WEIGHTS req.data_sensitivity).getD (mkRat 1 2)
  let purpose_score :=
    (dictGet PURPOSE_RISK_WEIGHTS req.purpose).getD (mkRat 1 2)
  let jurisdiction_score :=
    (dictGet JURISDICTION_RISK_WEIGHTS req.location).getD (mkRat 1 2)
  let risk_score :=
    calculate_risk_score role_score sensitivity_score purpose_score
      jurisdiction_score
  { risk_score := roundTo3 risk_score
    risk_level := get_risk_level risk_score
    exceeds_threshold := decide (RISK_THRESHOLD < risk_score)
    role_risk := role_score
    sensitivity_risk := sensitivity_score
    purpose_risk := purpose_score
    jurisdiction_risk := jurisdiction_score
    threshold := RISK_THRESHOLD }

/-! ## Consent manager (`services/consent_manager.py`) -/

/-- One stored consent record. -/
structure Consent where
  purposes : List String
  granted_at : ℚ
  expires_at : Option ℚ
  data_types : List String
deriving DecidableEq, Repr

/-- The seeded consent store built by `ConsentManager.__init__`, with every
`granted_at` stamped at service start time `t0`. -/
def initialConsents (t0 : ℚ) : List (String × Consent) :=
  [ ("user_123",
      ⟨["analytics", "research", "reporting"], t0, none,
        ["profile", "usage", "preferences"]⟩),
    ("user_456",
      ⟨["operational", "security", "audit"], t0, none,
        ["profile", "transactions", "logs"]⟩),
    ("user_789", ⟨["compliance", "audit"], t0, none, ["profile"]⟩) ]

/-- `_is_consent_expired`. -/
def isConsentExpired (now : ℚ) (c : Consent) : Bool :=
  match c.expires_at with
  | none => false
  | some e => decide (e < now)

structure ConsentResult where
  has_consent : Bool
  reason : String
  granted_purposes : List String
deriving DecidableEq, Repr

/-- `ConsentManager.check_consent`. -/
def check_consent (consents : List (String × Consent)) (now : ℚ)
    (req : AccessRequest) : ConsentResult :=
  match dictGet consents req.requester_id with
  | none =>
      ⟨false, "No consent found for requester: " ++ req.requester_id, []⟩
  | some consent =>
      if isConsentExpired now consent then
        ⟨false, "Consent has expired for requester: " ++ req.requester_id,
          consent.purposes⟩
      else if req.purpose ∉ consent.purposes then
        ⟨false, "Purpose " ++ req.purpose ++
            " not in granted consents. Granted: " ++
            String.intercalate ", " consent.purposes,
          consent.purposes⟩
      else
        ⟨true, "Consent granted for purpose: " ++ req.purpose,
          consent.purposes⟩

/-! ## Legal compliance engine (`services/legal_compliance.py`) -/

/-- The `Jurisdiction` enum. -/
inductive Jurisdiction where
  | EU
  | US_CA
  | US_VA
  | US_CO
  | UK
  | INDIA
  | BRAZIL
  | CANADA
  | AUSTRALIA
  | SINGAPORE
  | GLOBAL
deriving DecidableEq, Repr

/-- The requirement keys the merge reads.  The Python law dicts carry extra
keys (e.g. `opt_out_of_sale`) that no consumer reads, and keys absent from a
law default to `False` through `reqs.get(key, False)`; both are reflected by
recording exactly these fields, with `false` where the source dict lacks the
key. -/
structure LawRequirements where
  consent_required : Bool
  explicit_consent_for_sensitive : Bool
  right_to_erasure : Bool
  data_portability : Bool
  breach_notification_hours : Option ℕ
  dpo_required : Bool
  cross_border_restrictions : Bool
  profiling_opt_out : Bool
  automated_decision_rights : Bool
  purpose_limitation : String
  data_minimization : Bool
  retention_limits : Bool
deriving DecidableEq, Repr

structure PrivacyLaw where
  name : String
  strictness_score : ℚ
  requirements : LawRequirements
deriving DecidableEq, Repr

/-- `PRIVACY_LAWS`: the six defined laws; every other jurisdiction is absent
from the table. -/
def PRIVACY_LAWS : Jurisdiction → Option PrivacyLaw
  | .EU => some ⟨"GDPR", mkRat 95 100,
      ⟨true, true, true, true, some 72, true, true, true, true, "strict",
        true, true⟩⟩
  | .US_CA => some ⟨"CCPA", mkRat 75 100,
      ⟨false, false, true, true, none, false, false, true, true, "moderate",
        false, false⟩⟩
  | .INDIA => some ⟨"DPDP", mkRat 85 100,
      ⟨true, true, true, false, none, true, true, false, false, "strict",
        true, true⟩⟩
  | .UK => some ⟨"UK GDPR", mkRat 93 100,
      ⟨true, true, true, true, some 72, true, true, true, true, "strict",
        true, true⟩⟩
  | .BRAZIL => some ⟨"LGPD", mkRat 80 100,
      ⟨true, true, true, true, none, true, true, false, false, "moderate",
        true, true⟩⟩
  | .SINGAPORE => some ⟨"PDPA", mkRat 70 100,
      ⟨true, false, false, true, some 72, true, true, false, false,
        "moderate", false, true⟩⟩
  | _ => none

/-- `GEO_MAPPING`. -/
def GEO_MAPPING : List (String × Jurisdiction) :=
  [ ("DE", .EU), ("FR", .EU), ("IT", .EU), ("ES", .EU), ("NL", .EU),
    ("BE", .EU), ("PL", .EU), ("SE", .EU), ("AT", .EU), ("IE", .EU),
    ("PT", .EU), ("FI", .EU),
    ("GB", .UK), ("UK", .UK),
    ("US_CA", .US_CA), ("US_VA", .US_VA), ("US_CO", .US_CO),
    ("CA", .US_CA),
    ("IN", .INDIA), ("INDIA", .INDIA),
    ("BR", .BRAZIL), ("BRAZIL", .BRAZIL),
    ("SG", .SINGAPORE), ("AU", .AUSTRALIA) ]

/-- `location.upper()`, mapped over the characters (the location codes in
play are ASCII; `String.toUpper` itself is not kernel-reducible). -/
def strUpper (s : String) : String :=
  ⟨s.data.map Char.toUpper⟩

/-- `detect_jurisdictions`: map each non-empty location through
`GEO_MAPPING` (upper-cased), with a literal `"EU"` also accepted; fall back
to `[GLOBAL]` when nothing matches.  The Python accumulator is a `set` with
unspecified iteration order; the model keeps first-insertion order, and every
consumer below is insensitive to the order. -/
def detect_jurisdictions (data_subject_location requester_location
    data_storage_location : String) : List Jurisdiction :=
  let add := fun (acc : List Jurisdiction) (location : String) =>
    if location = "" then acc
    else
      let up := strUpper location
      match dictGet GEO_MAPPING up with
      | some j => if j ∈ acc then acc else acc ++ [j]
      | none =>
          if up = "EU" then
            if Jurisdiction.EU ∈ acc then acc else acc ++ [Jurisdiction.EU]
          else acc
  let js :=
    [data_subject_location, requester_location,
      data_storage_location].foldl add []
  if js = [] then [.GLOBAL] else js

/-- The `merged` accumulator initial value in `get_strictest_requirements`. -/
def initMerged : LawRequirements :=
  ⟨false, false, false, false, none, false, false, false, false, "none",
    false, false⟩

/-- `purpose_strictness.get(value, 0)`. -/
def plRank (s : String) : ℕ :=
  if s = "none" then 0 else if s = "moderate" then 1
  else if s = "strict" then 2 else 0

/-- Breach-hours merge: Python keeps the minimum of the truthy values
(`if reqs.get("breach_notification_hours"):` skips `None`, and would also
skip a literal `0`). -/
def mergeBreach (old : Option ℕ) (new' : Option ℕ) : Option ℕ :=
  match new' with
  | none => old
  | some h =>
      if h = 0 then old
      else match old with
        | none => some h
        | some m => some (min m h)

/-- Pointwise strictest-merge of one law's requirements into the
accumulator: booleans are OR-ed (`True` wins), breach hours take the
minimum, `purpose_limitation` the ordinally strictest. -/
def mergeRequirements (acc : LawRequirements) (r : LawRequirements) :
    LawRequirements :=
  { consent_required := acc.consent_required || r.consent_required
    explicit_consent_for_sensitive :=
      acc.explicit_consent_for_sensitive || r.explicit_consent_for_sensitive
    right_to_erasure := acc.right_to_erasure || r.right_to_erasure
    data_portability := acc.data_portability || r.data_portability
    breach_notification_hours :=
      mergeBreach acc.breach_notification_hours r.breach_notification_hours
    dpo_required := acc.dpo_required || r.dpo_required
    cross_border_restrictions :=
      acc.cross_border_restrictions || r.cross_border_restrictions
    profiling_opt_out := acc.profiling_opt_out || r.profiling_opt_out
    automated_decision_rights :=
      acc.automated_decision_rights || r.automated_decision_rights
    purpose_limitation :=
      if plRank acc.purpose_limitation < plRank r.purpose_limitation then
        r.purpose_limitation
      else acc.purpose_limitation
    data_minimization := acc.data_minimization || r.data_minimization
    retention_limits := acc.retention_limits || r.retention_limits }

/-- Loop accumulator of `get_strictest_requirements`. -/
structure MergeAcc where
  req : LawRequirements
  names : List String
  score : ℚ
deriving DecidableEq, Repr

/-- One iteration of the merge loop: jurisdictions without a law entry are
skipped entirely. -/
def mergeStep (acc : MergeAcc) (j : Jurisdiction) : MergeAcc :=
  match PRIVACY_LAWS j with
  | none => acc
  | some law =>
      { req := mergeRequirements acc.req law.requirements
        names := acc.names ++ [law.name]
        score := max acc.score law.strictness_score }

structure MergeResult where
  merged_requirements : LawRequirements
  applicable_laws : List String
  strictness_score : ℚ
  jurisdictions : List Jurisdiction
deriving DecidableEq, Repr

/-- `get_strictest_requirements`: with `GLOBAL` present or an empty input,
the fixed pair `[EU, INDIA]` is substituted for the input list. -/
def get_strictest_requirements (jurisdictions : List Jurisdiction) :
    MergeResult :=
  let js :=
    if Jurisdiction.GLOBAL ∈ jurisdictions ∨ jurisdictions = [] then
      [Jurisdiction.EU, Jurisdiction.INDIA]
    else jurisdictions
  let acc := js.foldl mergeStep ⟨initMerged, [], 0⟩
  ⟨acc.req, acc.names, acc.score, js⟩

structure ComplianceIssue where
  issue : String
  severity : String
  message : String
deriving DecidableEq, Repr

structure ComplianceResult where
  is_compliant : Bool
  jurisdictions : List Jurisdiction
  applicable_laws : List String
  strictness_score : ℚ
  requirements_applied : LawRequirements
  compliance_issues : List ComplianceIssue
  required_actions : List String
deriving DecidableEq, Repr

/-- `evaluate_compliance`.  `consent_verified` is `request.get("consent_verified")`
truthiness (`false` when the caller's request dict lacks the key, as the
enhanced gateway's does); the audit trail in `compliance_log` is
presentation-only and omitted. -/
def evaluate_compliance (purpose data_sensitivity : String)
    (consent_verified : Bool) (data_storage_location : String)
    (data_subject_location requester_location : String) : ComplianceResult :=
  let jurisdictions :=
    detect_jurisdictions data_subject_location requester_location
      data_storage_location
  let requirements := get_strictest_requirements jurisdictions
  let merged := requirements.merged_requirements
  let issues1 : List ComplianceIssue :=
    if merged.consent_required && !consent_verified then
      [⟨"CONSENT_REQUIRED", "blocking",
          "Explicit consent required but not verified"⟩]
    else []
  let actions1 : List String :=
    if merged.consent_required && !consent_verified then
      ["Obtain user consent before processing"]
    else []
  let issues2 : List ComplianceIssue :=
    if merged.purpose_limitation = "strict" &&
        !(["analytics", "research", "compliance", "audit",
            "operational"].contains purpose) then
      [⟨"PURPOSE_LIMITATION", "warning",
          "Purpose " ++ purpose ++ " may not meet strict purpose limitation"⟩]
    else []
  let actions2 : List String :=
    if merged.data_minimization && data_sensitivity = "high" then
      ["Apply data minimization - only collect necessary fields"]
    else []
  let crossBorder :=
    merged.cross_border_restrictions &&
      !(data_subject_location = requester_location)
  let issues3 : List ComplianceIssue :=
    if crossBorder then
      [⟨"CROSS_BORDER_TRANSFER", "warning",
          "Cross-border data transfer - ensure adequate safeguards"⟩]
    else []
  let actions3 : List String :=
    if crossBorder then
      ["Verify Standard Contractual Clauses or adequacy decision"]
    else []
  let compliance_issues := issues1 ++ issues2 ++ issues3
  let blocking :=
    compliance_issues.filter (fun i => i.severity = "blocking")
  { is_compliant := blocking.length = 0
    jurisdictions := jurisdictions
    applicable_laws := requirements.applicable_laws
    strictness_score := requirements.strictness_score
    requirements_applied := merged
    compliance_issues := compliance_issues
    required_actions := actions1 ++ actions2 ++ actions3 }

/-! ## Self-destructing token manager (`services/self_destructing_token.py`)

The JWT encode/decode pair is the external sign/verify capability: a
successfully verified token is represented directly by its decoded
`token_id`, and the `JWTError` branch (malformed signature) is outside the
embedded state machine, which is keyed on token ids throughout. -/

/-- One entry of a token's `access_log`. -/
structure TokenAccessEntry where
  timestamp : ℚ
  remaining_uses : ℕ
deriving DecidableEq, Repr

/-- Server-side record in `active_tokens` (`generate_task_token`). -/
structure TokenData where
  user_id : String
  task_id : String
  task_type : String
  issued_at : ℚ
  expires_at : ℚ
  max_uses : ℕ
  current_uses : ℕ
  data_scope : List String
  status : String
  access_log : List TokenAccessEntry
deriving DecidableEq, Repr

/-- State of `SelfDestructingTokenManager`. -/
structure TokenState where
  active_tokens : List (String × TokenData)
  revoked_tokens : List String
deriving DecidableEq, Repr

def initTokenState : TokenState := ⟨[], []⟩

/-- `data_scope or ["*"]` (both `None` and `[]` are falsy). -/
def scopeOrStar (data_scope : Option (List String)) : List String :=
  match data_scope with
  | none => ["*"]
  | some [] => ["*"]
  | some l => l

/-- `generate_task_token`: the random `token_id` from
`secrets.token_urlsafe` is an input here; `expires_at = issued_at + ttl`,
with token time measured in the TTL's unit. -/
def generate_task_token (now : ℚ) (st : TokenState)
    (token_id user_id task_id task_type : String) (max_ttl : ℚ)
    (max_uses : ℕ) (data_scope : Option (List String)) : TokenState :=
  { st with
      active_tokens := dictSet st.active_tokens token_id
        { user_id := user_id
          task_id := task_id
          task_type := task_type
          issued_at := now
          expires_at := qAdd now max_ttl
          max_uses := max_uses
          current_uses := 0
          data_scope := scopeOrStar data_scope
          status := "active"
          access_log := [] } }

/-- `_destroy_token`: a no-op for ids absent from the active set; otherwise
the record is dropped from `active_tokens` and the id joins the
`revoked_tokens` blacklist (a Python `set`, hence the dedup). -/
def destroyToken (st : TokenState) (token_id : String) : TokenState :=
  match dictGet st.active_tokens token_id with
  | none => st
  | some _ =>
      { active_tokens := dictErase st.active_tokens token_id
        revoked_tokens :=
          if token_id ∈ st.revoked_tokens then st.revoked_tokens
          else st.revoked_tokens ++ [token_id] }

/-- Caller-visible result of `validate_and_consume`. -/
structure ValidationResult where
  valid : Bool
  reason : String
  destroyed : Bool
deriving DecidableEq, Repr

/-- `validate_and_consume` on the decoded token id. -/
def validate_and_consume (now : ℚ) (st : TokenState) (token_id : String) :
    ValidationResult × TokenState :=
  if token_id ∈ st.revoked_tokens then
    (⟨false, "Token has been destroyed (revoked)", true⟩, st)
  else
    match dictGet st.active_tokens token_id with
    | none => (⟨false, "Token not found or already destroyed", true⟩, st)
    | some token_data =>
        if token_data.expires_at < now then
          (⟨false, "Token self-destructed (TTL expired)", true⟩,
            destroyToken st token_id)
        else if token_data.max_uses ≤ token_data.current_uses then
          (⟨false, "Token self-destructed (max uses reached)", true⟩,
            destroyToken st token_id)
        else
          let used := token_data.current_uses + 1
          let remaining := token_data.max_uses - used
          let token_data' :=
            { token_data with
                current_uses := used
                access_log := token_data.access_log ++ [⟨now, remaining⟩] }
          let st' :=
            { st with
                active_tokens :=
                  dictSet st.active_tokens token_id token_data' }
          if remaining = 0 then
            (⟨true, "Token consumed and self-destructed", true⟩,
              destroyToken st' token_id)
          else
            (⟨true,
                "Token valid. " ++ toString remaining ++ " uses remaining.",
                false⟩,
              st')

/-- `complete_task`: destroy every active token of the task. -/
def complete_task (st : TokenState) (task_id : String) : TokenState :=
  let ids := (st.active_tokens.filter
    (fun p => p.2.task_id = task_id)).map (·.1)
  ids.foldl destroyToken st

/-- The operations that touch `TokenState`, for reachability arguments. -/
inductive TokenOp where
  | issue (now : ℚ) (token_id user_id task_id task_type : String)
      (max_ttl : ℚ) (max_uses : ℕ) (data_scope : Option (List String))
  | validate (now : ℚ) (token_id : String)
  | complete (task_id : String)
deriving Repr

def applyTokenOp (st : TokenState) (op : TokenOp) : TokenState :=
  match op with
  | .issue now tid uid task ttype ttl uses scope =>
      generate_task_token now st tid uid task ttype ttl uses scope
  | .validate now tid => (validate_and_consume now st tid).2
  | .complete task => complete_task st task

/-- The token states reachable from the empty manager. -/
def runTokenOps (ops : List TokenOp) : TokenState :=
  ops.foldl applyTokenOp initTokenState

/-! ## RTBF trigger service (`services/rtbf_trigger.py`) -/

/-- The `DataLayer` enum. -/
inductive DataLayer where
  | primary_db
  | cache
  | search_index
  | ml_models
  | analytics
  | audit_logs
  | backups
  | third_party
deriving DecidableEq, Repr

/-- `DataLayer` string values. -/
def layerValue : DataLayer → String
  | .primary_db => "primary_database"
  | .cache => "cache_layer"
  | .search_index => "search_index"
  | .ml_models => "ml_models"
  | .analytics => "analytics_store"
  | .audit_logs => "audit_logs"
  | .backups => "backup_systems"
  | .third_party => "third_party_services"

/-- Iteration order of `self.layer_handlers`, the insertion order of
`_register_default_handlers`. -/
def layerOrder : List DataLayer :=
  [.primary_db, .cache, .search_index, .ml_models, .analytics, .audit_logs,
    .backups, .third_party]

/-- Outcome of invoking one layer handler: a normal return with its
`records_affected`, or a raised exception caught by `_execute_purge`. -/
inductive HandlerOutcome where
  | ok (records_affected : ℕ)
  | err (msg : String)
deriving DecidableEq, Repr

/-- Per-layer entry of `layer_status`. -/
structure LayerResult where
  status : String
  records_affected : ℕ
  error : Option String
deriving DecidableEq, Repr

/-- Observable side effects of `trigger_rtbf`, in execution order. -/
inductive PurgeEvent where
  | block (subject_id : String)
  | handlerRun (layer : DataLayer)
deriving DecidableEq, Repr

/-- `if scope and "all" not in scope: if layer.value not in scope: skip`. -/
def layerSkipped (scope : Option (List String)) (layer : DataLayer) : Bool :=
  match scope with
  | none => false
  | some s => !(s = []) && !(s.contains "all") && !(s.contains (layerValue layer))

/-- `_execute_purge`: walk the handlers in registration order; handlers for
out-of-scope layers are never invoked; an exception becomes a `failed` entry
without stopping the loop.  Also returns the handler-invocation events. -/
def execute_purge (scope : Option (List String))
    (outcomes : DataLayer → HandlerOutcome) :
    List (String × LayerResult) × List PurgeEvent :=
  layerOrder.foldl
    (fun acc layer =>
      if layerSkipped scope layer then
        (acc.1 ++ [(layerValue layer, ⟨"skipped", 0, none⟩)], acc.2)
      else
        match outcomes layer with
        | .ok n =>
            (acc.1 ++ [(layerValue layer, ⟨"completed", n, none⟩)],
              acc.2 ++ [.handlerRun layer])
        | .err e =>
            (acc.1 ++ [(layerValue layer, ⟨"failed", 0, some e⟩)],
              acc.2 ++ [.handlerRun layer]))
    ([], [])

/-- `_determine_overall_status`. -/
def determine_overall_status (results : List (String × LayerResult)) :
    String :=
  let statuses := results.map (fun r => r.2.status)
  if statuses.all (fun s => s = "completed" || s = "skipped") then "completed"
  else if statuses.any (fun s => s = "failed") then
    if statuses.any (fun s => s = "completed") then "partial" else "failed"
  else "in_progress"

/-- One RTBF request record.  The deletion certificate's SHA-256 contents
are outside the embedding; only its presence is tracked. -/
structure RtbfRequest where
  request_id : String
  subject_id : String
  requested_by : String
  reason : String
  scope : List String
  status : String
  created_at : ℚ
  updated_at : ℚ
  layer_status : List (String × LayerResult)
  access_blocked : Bool
  verification : Bool
  has_deletion_certificate : Bool
deriving DecidableEq, Repr

/-- State of `RTBFTriggerService`. -/
structure RtbfState where
  active_requests : List (String × RtbfRequest)
  purge_records : List RtbfRequest
  blocked_subjects : List (String × ℚ)
deriving DecidableEq, Repr

def initRtbfState : RtbfState := ⟨[], [], []⟩

/-- `is_subject_blocked`: membership in `blocked_subjects`. -/
def is_subject_blocked (st : RtbfState) (subject_id : String) : Bool :=
  (dictGet st.blocked_subjects subject_id).isSome

/-- `trigger_rtbf`.  The request id comes from a SHA-256 of subject and
timestamp and is taken as an input; the handler bodies are abstracted by the
`outcomes` argument (the shipped defaults always succeed, and the
`except`-caught failure path is reachable for any handler).  Returns the
request record, the new state, and the side-effect trace in program order:
the block-set insertion happens first, then the handler invocations. -/
def trigger_rtbf (now : ℚ) (st : RtbfState)
    (request_id subject_id requested_by reason : String)
    (scope : Option (List String)) (verification : Bool)
    (outcomes : DataLayer → HandlerOutcome) :
    RtbfRequest × RtbfState × List PurgeEvent :=
  let blocked' := dictSet st.blocked_subjects subject_id now
  let r0 : RtbfRequest :=
    { request_id := request_id
      subject_id := subject_id
      requested_by := requested_by
      reason := reason
      scope := scopeOrStar scope
      status := "pending"
      created_at := now
      updated_at := now
      layer_status := []
      access_blocked := true
      verification := verification
      has_deletion_certificate := false }
  let active1 := dictSet st.active_requests request_id r0
  let purge := execute_purge scope outcomes
  let results := purge.1
  let r1 :=
    { r0 with
        layer_status := results
        status := determine_overall_status results
        updated_at := now }
  if r1.status = "completed" then
    let r2 := { r1 with has_deletion_certificate := true }
    (r2,
      { active_requests := dictErase (dictSet active1 request_id r2) request_id
        purge_records := st.purge_records ++ [r2]
        blocked_subjects := blocked' },
      .block subject_id :: purge.2)
  else
    (r1,
      { active_requests := dictSet active1 request_id r1
        purge_records := st.purge_records
        blocked_subjects := blocked' },
      .block subject_id :: purge.2)

/-! ## Decision orchestration (`api/routes.py`)

The relational audit write (`audit_logger.log_request`) is the external
append-only collaborator and carries no decision logic; it is omitted from
the state.  `current_user` is the verified JWT subject, passed as a plain
argument. -/

/-- The service singletons a gateway request can read or write. -/
structure Services where
  consents : List (String × Consent)
  budget : BudgetState
  rtbf : RtbfState
deriving DecidableEq, Repr

/-- Response of both gateway endpoints (decision fields only; the
`policy_checks`/`consent_status`/`privacy_budget`/`legal_compliance`
payloads are verbatim pass-throughs of the sub-results). -/
structure GatewayResponse where
  decision : String
  reason : String
  risk_score : ℚ
deriving DecidableEq, Repr

/-- `POST /request-data` (`request_data_access`): policy, consent and risk
only — the handler never consults the RTBF service or the budget ledger. -/
def request_data_access (st : Services) (now : ℚ) (req : AccessRequest) :
    GatewayResponse :=
  let policy_result := evaluate_policy req
  let consent_result := check_consent st.consents now req
  let risk_result := assess_risk req
  let reasons : List String :=
    (if !policy_result.allowed then ["Policy: " ++ policy_result.reason]
      else []) ++
    (if !consent_result.has_consent then
      ["Consent: " ++ consent_result.reason] else []) ++
    (if risk_result.exceeds_threshold then
      ["Risk: Score " ++ toString risk_result.risk_score ++
        " exceeds threshold " ++ toString risk_result.threshold]
      else []) ++
    (if policy_result.allowed && consent_result.has_consent &&
        !risk_result.exceeds_threshold then
      ["All checks passed: policy compliant, consent granted, risk acceptable"]
      else [])
  let decision :=
    if policy_result.allowed && consent_result.has_consent &&
        !risk_result.exceeds_threshold then "ALLOW" else "DENY"
  ⟨decision, String.intercalate " | " reasons, risk_result.risk_score⟩

/-- The fixed deny reason of the enhanced endpoint's RTBF short-circuit. -/
def RTBF_DENY_REASON : String :=
  "Data subject has exercised Right to Be Forgotten - all access blocked"

/-- `POST /request-data/enhanced` (`request_data_access_enhanced`): checks
the RTBF block first and otherwise runs all five checks, consuming privacy
budget (query type `"individual"`, default `num_records = 1`) as a side
effect. -/
def request_data_access_enhanced (st : Services) (now : ℚ)
    (req : AccessRequest) (current_user_sub : String) :
    GatewayResponse × Services :=
  if is_subject_blocked st.rtbf req.requester_id then
    (⟨"DENY", RTBF_DENY_REASON, 1⟩, st)
  else
    let policy_result := evaluate_policy req
    let consent_result := check_consent st.consents now req
    let risk_result := assess_risk req
    let bud :=
      check_and_consume_budget now st.budget req.requester_id
        current_user_sub "individual" req.data_sensitivity 1 0 req.purpose
    let compliance_result :=
      evaluate_compliance req.purpose req.data_sensitivity false "US"
        req.location "US"
    let blocking := compliance_result.compliance_issues.filter
      (fun i => i.severity = "blocking")
    let reasons : List String :=
      (if !policy_result.allowed then ["Policy: " ++ policy_result.reason]
        else []) ++
      (if !consent_result.has_consent then
        ["Consent: " ++ consent_result.reason] else []) ++
      (if risk_result.exceeds_threshold then
        ["Risk: Score " ++ toString risk_result.risk_score ++
          " exceeds threshold"]
        else []) ++
      (if !bud.1.allowed then ["Privacy Budget: " ++ bud.1.reason]
        else []) ++
      (if !compliance_result.is_compliant then
        match blocking with
        | [] => []
        | i :: _ => ["Legal: " ++ i.message]
        else [])
    let all_passed :=
      policy_result.allowed && consent_result.has_consent &&
        !risk_result.exceeds_threshold && bud.1.allowed &&
        compliance_result.is_compliant
    let reasons := reasons ++
      (if all_passed then ["All privacy checks passed"] else [])
    let decision := if all_passed then "ALLOW" else "DENY"
    (⟨decision, String.intercalate " | " reasons, risk_result.risk_score⟩,
      { st with budget := bud.2 })

/-! ## Per-account budget operations and invariants -/

/-- The operations that touch one subject's budget account: a lazy
get-or-create (which performs the window roll), a check-and-consume with an
already-computed cost, and the wholesale replacement by
`set_custom_budget`. -/
inductive BudgetOp where
  | touch (now : ℚ)
  | consume (now : ℚ) (cost : ℚ)
  | setCustom (now : ℚ) (eps : ℚ) (reset_hours : ℕ)
deriving Repr

/-- Effect of one operation on one subject's account slot, mirroring the
composition used by the service (`_get_or_create_budget` then the consume
step of `check_and_consume_budget`). -/
def applyBudgetOp (acc : Option BudgetAccount) (op : BudgetOp) :
    Option BudgetAccount :=
  match op with
  | .touch now => some (rollIfElapsed now (acc.getD (freshAccount now)))
  | .consume now cost =>
      some ((consumeOnAccount now cost
        (rollIfElapsed now (acc.getD (freshAccount now)))).2)
  | .setCustom now eps reset_hours => some (customAccount now eps reset_hours)

/-- Account state after a sequence of operations on a fresh subject. -/
def runBudgetOps (ops : List BudgetOp) : Option BudgetAccount :=
  ops.foldl applyBudgetOp none

/-- The side conditions the claims place on operations: consumed costs and
custom budgets are non-negative. -/
def legalBudgetOp : BudgetOp → Bool
  | .touch _ => true
  | .consume _ cost => decide (0 ≤ cost)
  | .setCustom _ eps _ => decide (0 ≤ eps)

/-- The budget-account invariant: `0 ≤ remaining_epsilon ≤ total_epsilon`. -/
def BudgetInv (b : BudgetAccount) : Prop :=
  0 ≤ b.remaining_budget ∧ b.remaining_budget ≤ b.total_budget

/-- The token-store invariant: every active token satisfies
`current_uses ≤ max_uses`. -/
def TokenInv (st : TokenState) : Prop :=
  ∀ p ∈ st.active_tokens, p.2.current_uses ≤ p.2.max_uses

/-! ## Spec-side notions for the compliance claims -/

/-- Strictness score of a jurisdiction's law, 0 when it has no table row. -/
def lawScore (j : Jurisdiction) : ℚ :=
  ((PRIVACY_LAWS j).map (fun l => l.strictness_score)).getD 0

def allJurisdictions : List Jurisdiction :=
  [.EU, .US_CA, .US_VA, .US_CO, .UK, .INDIA, .BRAZIL, .CANADA, .AUSTRALIA,
    .SINGAPORE, .GLOBAL]

/-- Modelled from the spec: `{a, b}` are "the two jurisdictions with the
highest strictness_score in the static privacy-law table" — every other
jurisdiction scores no higher than either of them. -/
def IsTwoStrictest (a b : Jurisdiction) : Prop :=
  a ≠ b ∧ ∀ c ∈ allJurisdictions, c ≠ a → c ≠ b →
    lawScore c ≤ min (lawScore a) (lawScore b)

/-- Boolean-requirement monotonicity: every merged boolean requirement true
on the left stays true on the right. -/
def ReqLe (a b : LawRequirements) : Prop :=
  (a.consent_required = true → b.consent_required = true) ∧
  (a.explicit_consent_for_sensitive = true →
    b.explicit_consent_for_sensitive = true) ∧
  (a.right_to_erasure = true → b.right_to_erasure = true) ∧
  (a.data_portability = true → b.data_portability = true) ∧
  (a.dpo_required = true → b.dpo_required = true) ∧
  (a.cross_border_restrictions = true →
    b.cross_border_restrictions = true) ∧
  (a.profiling_opt_out = true → b.profiling_opt_out = true) ∧
  (a.automated_decision_rights = true →
    b.automated_decision_rights = true) ∧
  (a.data_minimization = true → b.data_minimization = true) ∧
  (a.retention_limits = true → b.retention_limits = true)

/-! ## Concrete scenarios -/

/-- Scenario C, call 1: fresh subject, `"raw"` + `"high"`, cost 1. -/
def scenC_r1 : BudgetResult × BudgetState :=
  check_and_consume_budget 0 initBudgetState "subject_1" "requester_1" "raw"
    "high" 1 0 "analytics"

/-- Scenario C, call 2, one hour later (same 24-hour window). -/
def scenC_r2 : BudgetResult × BudgetState :=
  check_and_consume_budget 1 scenC_r1.2 "subject_1" "requester_1" "raw"
    "high" 1 0 "analytics"

/-- Scenario C, call 3, two hours in (same 24-hour window). -/
def scenC_r3 : BudgetResult × BudgetState :=
  check_and_consume_budget 2 scenC_r2.2 "subject_1" "requester_1" "raw"
    "high" 1 0 "analytics"

/-- A call with an unknown `query_type` on a fresh subject. -/
def unknownTypeCall : BudgetResult × BudgetState :=
  check_and_consume_budget 0 initBudgetState "subject_2" "requester_2"
    "geospatial" "medium" 1 0 "analytics"

/-- A state whose subject `"subject_3"` has a custom budget of 1/2. -/
def halfBudgetState : BudgetState :=
  set_custom_budget 0 initBudgetState "subject_3" (mkRat 1 2) 24

/-- A `"raw"`+`"high"` (cost 1) call against the 1/2 budget: denied. -/
def deniedCall : BudgetResult × BudgetState :=
  check_and_consume_budget 0 halfBudgetState "subject_3" "requester_3" "raw"
    "high" 1 0 "analytics"

/-- A service state in which `"user_123"` is RTBF-blocked. -/
def blockedServices : Services :=
  ⟨initialConsents 0, initBudgetState, ⟨[], [], [("user_123", 0)]⟩⟩

/-- A request by the blocked requester that passes policy, consent and
risk: admin role, analytics purpose (granted in the seeded consents), US,
low sensitivity (risk score 0.19 < 0.7). -/
def blockedRequest : AccessRequest :=
  ⟨"user_123", "admin", "analytics", "US", "low"⟩

/-- Scenario D: a single-use token, issued then consumed twice. -/
def scenD_state : TokenState :=
  generate_task_token 0 initTokenState "token_1" "user_1" "task_1"
    "inference" 300 1 none

def scenD_v1 : ValidationResult × TokenState :=
  validate_and_consume 1 scenD_state "token_1"

def scenD_v2 : ValidationResult × TokenState :=
  validate_and_consume 2 scenD_v1.2 "token_1"

/-- An RTBF state with one previously blocked subject. -/
def rtbfPreState : RtbfState := ⟨[], [], [("old_subject", 5)]⟩

/-- Handler outcomes in which every layer purge raises. -/
def allFailOutcomes : DataLayer → HandlerOutcome :=
  fun _ => .err "handler crashed"

/-! # Theorems -/

/-! ## Shared lemmas -/

theorem qAdd_eq (a b : ℚ) : qAdd a b = a + b := by
  have ha : (a.den : ℚ) ≠ 0 := Nat.cast_ne_zero.mpr a.den_nz
  have hb : (b.den : ℚ) ≠ 0 := Nat.cast_ne_zero.mpr b.den_nz
  rw [qAdd, Rat.divInt_eq_div]
  conv_rhs => rw [← Rat.num_div_den a, ← Rat.num_div_den b]
  rw [div_add_div _ _ ha hb]
  push_cast
  ring_nf

theorem qSub_eq (a b : ℚ) : qSub a b = a - b := by
  have ha : (a.den : ℚ) ≠ 0 := Nat.cast_ne_zero.mpr a.den_nz
  have hb : (b.den : ℚ) ≠ 0 := Nat.cast_ne_zero.mpr b.den_nz
  rw [qSub, Rat.divInt_eq_div]
  conv_rhs => rw [← Rat.num_div_den a, ← Rat.num_div_den b]
  rw [div_sub_div _ _ ha hb]
  push_cast
  ring_nf

theorem qMul_eq (a b : ℚ) : qMul a b = a * b := by
  have ha : (a.den : ℚ) ≠ 0 := Nat.cast_ne_zero.mpr a.den_nz
  have hb : (b.den : ℚ) ≠ 0 := Nat.cast_ne_zero.mpr b.den_nz
  rw [qMul, Rat.divInt_eq_div]
  conv_rhs => rw [← Rat.num_div_den a, ← Rat.num_div_den b]
  rw [div_mul_div_comm]
  push_cast
  ring_nf

theorem qDiv_eq (a b : ℚ) : qDiv a b = a / b := by
  by_cases hb0 : b = 0
  · subst hb0
    simp [qDiv, Rat.divInt_eq_div]
  · have ha : (a.den : ℚ) ≠ 0 := Nat.cast_ne_zero.mpr a.den_nz
    have hb : (b.den : ℚ) ≠ 0 := Nat.cast_ne_zero.mpr b.den_nz
    have hbn : (b.num : ℚ) ≠ 0 :=
      Int.cast_ne_zero.mpr (Rat.num_ne_zero.mpr hb0)
    rw [qDiv, Rat.divInt_eq_div]
    conv_rhs => rw [← Rat.num_div_den a, ← Rat.num_div_den b]
    push_cast
    field_simp
    try ring_nf

theorem dictGet_dictSet_same {α : Type} (m : List (String × α)) (k : String)
    (v : α) : dictGet (dictSet m k v) k = some v := by
  induction m with
  | nil => simp [dictSet, dictGet]
  | cons hd tl ih =>
      by_cases h : hd.1 = k
      · simp [dictSet, dictGet, h]
      · simp [dictSet, dictGet, h, ih]

theorem dictGet_dictSet_other {α : Type} (m : List (String × α))
    (k k' : String) (v : α) (hne : k ≠ k') :
    dictGet (dictSet m k v) k' = dictGet m k' := by
  induction m with
  | nil => simp [dictSet, dictGet, hne]
  | cons hd tl ih =>
      by_cases h : hd.1 = k
      · have h' : ¬hd.1 = k' := by rw [h]; exact hne
        simp [dictSet, dictGet, h, h', hne]
      · simp [dictSet, dictGet, h, ih]

theorem mem_of_mem_dictSet {α : Type} {m : List (String × α)} {k : String}
    {v : α} {p : String × α} (h : p ∈ dictSet m k v) :
    p = (k, v) ∨ p ∈ m := by
  revert h
  induction m with
  | nil =>
      intro h
      rw [dictSet] at h
      simpa using h
  | cons hd tl ih =>
      intro h
      by_cases hk : hd.1 = k
      · rw [dictSet, if_pos hk] at h
        rcases List.mem_cons.mp h with h | h
        · exact Or.inl h
        · exact Or.inr (List.mem_cons_of_mem _ h)
      · rw [dictSet, if_neg hk] at h
        rcases List.mem_cons.mp h with h | h
        · exact Or.inr (by simp [h])
        · rcases ih h with h' | h'
          · exact Or.inl h'
          · exact Or.inr (List.mem_cons_of_mem _ h')

theorem mem_of_mem_dictErase {α : Type} {m : List (String × α)} {k : String}
    {p : String × α} (h : p ∈ dictErase m k) : p ∈ m := by
  revert h
  induction m with
  | nil =>
      intro h
      rw [dictErase] at h
      exact absurd h (List.not_mem_nil p)
  | cons hd tl ih =>
      intro h
      by_cases hk : hd.1 = k
      · rw [dictErase, if_pos hk] at h
        exact List.mem_cons_of_mem _ h
      · rw [dictErase, if_neg hk] at h
        rcases List.mem_cons.mp h with h | h
        · exact h ▸ List.mem_cons_self _ _
        · exact List.mem_cons_of_mem _ (ih h)

/-- `check_and_consume_budget` reads its query-type, sensitivity and record
count only through `calculate_query_cost`. -/
theorem check_and_consume_cost_congr (now : ℚ) (st : BudgetState)
    (s r p : String) {qt ds qt' ds' : String} {n n' : ℕ} {ln ln' : ℚ}
    (h : calculate_query_cost qt ds n ln =
      calculate_query_cost qt' ds' n' ln') :
    check_and_consume_budget now st s r qt ds n ln p =
      check_and_consume_budget now st s r qt' ds' n' ln' p := by
  simp only [check_and_consume_budget,
    check_and_consume_budget.checkAfterBlock, h]

/-! ## C1 — Scenario C (three raw/high queries against a 1.0 budget) -/

/-- C1 counterexample: on the very first call the remaining budget drops to
0 and the recomputed `alert_level` is `"critical"` (ratio 0 < 10%), not
`"exhausted"` as the claim states; `"exhausted"` is only ever set on a
denial. -/
theorem scenarioC_first_allow_not_exhausted :
    scenC_r1.1.allowed = true ∧ scenC_r1.1.budget_remaining = 0 ∧
      ¬scenC_r1.1.alert_level = some AlertLevel.exhausted := by
  decide

/-- C1 (amended): first call ALLOW with remaining 0.0 and alert level
`"critical"`; second and third calls DENY with the identical reason, mark
the account `"exhausted"`, and never decrement the remaining budget
further. -/
theorem scenarioC_exhaustion_behavior :
    scenC_r1.1.allowed = true ∧
      scenC_r1.1.budget_remaining = 0 ∧
      scenC_r1.1.alert_level = some AlertLevel.critical ∧
      scenC_r2.1.allowed = false ∧
      scenC_r3.1.allowed = false ∧
      scenC_r2.1.reason = scenC_r3.1.reason ∧
      scenC_r2.1.alert_level = some AlertLevel.exhausted ∧
      scenC_r3.1.alert_level = some AlertLevel.exhausted ∧
      scenC_r2.1.budget_remaining = 0 ∧
      scenC_r3.1.budget_remaining = 0 ∧
      (dictGet scenC_r3.2.budgets "subject_1").map
        (fun b => b.remaining_budget) = some 0 := by
  decide

/-! ## C2 — unknown enum values in the budget check -/

/-- C2 counterexample: a call with the unknown query type `"geospatial"` is
neither reported nor rejected — it is ALLOWed and consumes 0.25ε from the
fresh subject's budget. -/
theorem unknown_query_type_not_rejected :
    unknownTypeCall.1.allowed = true ∧
      unknownTypeCall.1.query_cost = some (mkRat 1 4) ∧
      (dictGet unknownTypeCall.2.budgets "subject_2").map
        (fun b => b.remaining_budget) = some (mkRat 3 4) := by
  decide

/-- C2 (amended): an unknown `query_type` or `data_sensitivity` is not
validated; the cost table lookup falls back to the default base cost 0.25
and the check-and-consume call proceeds normally, consuming that cost. -/
theorem unknown_enum_defaults_cost_and_consumes (qt ds : String)
    (h : qt ∉ ["aggregate", "individual", "raw"] ∨
      ds ∉ ["low", "medium", "high"]) :
    baseCost qt ds = mkRat 1 4 ∧
      (check_and_consume_budget 0 initBudgetState "subject_2" "requester_2"
        qt ds 1 0 "analytics").1.allowed = true ∧
      (check_and_consume_budget 0 initBudgetState "subject_2" "requester_2"
        qt ds 1 0 "analytics").1.query_cost = some (mkRat 1 4) ∧
      (check_and_consume_budget 0 initBudgetState "subject_2" "requester_2"
        qt ds 1 0 "analytics").1.budget_remaining = mkRat 3 4 := by
  have hbase : baseCost qt ds = mkRat 1 4 := by
    rcases h with h | h
    · have h1 : ¬"aggregate" = qt := fun e => h (by simp [← e])
      have h2 : ¬"individual" = qt := fun e => h (by simp [← e])
      have h3 : ¬"raw" = qt := fun e => h (by simp [← e])
      simp [baseCost, QUERY_EPSILON_COSTS, dictGet, h1, h2, h3]
    · have g1 : ¬"low" = ds := fun e => h (by simp [← e])
      have g2 : ¬"medium" = ds := fun e => h (by simp [← e])
      have g3 : ¬"high" = ds := fun e => h (by simp [← e])
      by_cases e1 : "aggregate" = qt
      · simp [baseCost, QUERY_EPSILON_COSTS, dictGet, ← e1, g1, g2, g3]
      · by_cases e2 : "individual" = qt
        · simp [baseCost, QUERY_EPSILON_COSTS, dictGet, ← e2, g1, g2, g3]
        · by_cases e3 : "raw" = qt
          · simp [baseCost, QUERY_EPSILON_COSTS, dictGet, ← e3, g1, g2, g3]
          · simp [baseCost, QUERY_EPSILON_COSTS, dictGet, e1, e2, e3]
  have hmed : baseCost "individual" "medium" = mkRat 1 4 := by decide
  have hcost : calculate_query_cost qt ds 1 0 =
      calculate_query_cost "individual" "medium" 1 0 := by
    simp [calculate_query_cost, hbase, hmed]
  rw [check_and_consume_cost_congr 0 initBudgetState "subject_2"
    "requester_2" "analytics" hcost]
  refine ⟨hbase, ?_, ?_, ?_⟩ <;> decide

/-- Witness for C2 at the unknown query type `"geospatial"`. -/
theorem unknown_enum_defaults_cost_and_consumes_witness :
    baseCost "geospatial" "medium" = mkRat 1 4 ∧
      (check_and_consume_budget 0 initBudgetState "subject_2" "requester_2"
        "geospatial" "medium" 1 0 "analytics").1.allowed = true ∧
      (check_and_consume_budget 0 initBudgetState "subject_2" "requester_2"
        "geospatial" "medium" 1 0 "analytics").1.query_cost =
        some (mkRat 1 4) ∧
      (check_and_consume_budget 0 initBudgetState "subject_2" "requester_2"
        "geospatial" "medium" 1 0 "analytics").1.budget_remaining =
        mkRat 3 4 :=
  unknown_enum_defaults_cost_and_consumes "geospatial" "medium"
    (Or.inl (by decide))

/-! ## C3 — RTBF short-circuit in the orchestrator -/

/-- C3 counterexample: with `"user_123"` in the RTBF blocked set, the basic
`/request-data` endpoint still answers ALLOW — it never consults the blocked
set, so no short-circuit DENY with the fixed RTBF reason occurs. -/
theorem basic_endpoint_ignores_rtbf_block :
    is_subject_blocked blockedServices.rtbf blockedRequest.requester_id =
        true ∧
      (request_data_access blockedServices 0 blockedRequest).decision =
        "ALLOW" ∧
      ¬(request_data_access blockedServices 0 blockedRequest).reason =
        RTBF_DENY_REASON := by
  decide

/-- C3 (amended): the RTBF short-circuit lives in the enhanced endpoint
only — there a blocked requester id yields the fixed DENY response with no
state change, independent of every other check — while the basic endpoint's
response depends only on the consent store, not on the RTBF service. -/
theorem rtbf_short_circuit_enhanced_only :
    (∀ (st : Services) (now : ℚ) (req : AccessRequest) (sub : String),
      is_subject_blocked st.rtbf req.requester_id = true →
      request_data_access_enhanced st now req sub =
        (⟨"DENY", RTBF_DENY_REASON, 1⟩, st)) ∧
    (∀ (st st' : Services) (now : ℚ) (req : AccessRequest),
      st.consents = st'.consents →
      request_data_access st now req = request_data_access st' now req) := by
  constructor
  · intro st now req sub h
    simp [request_data_access_enhanced, h]
  · intro st st' now req h
    simp only [request_data_access, h]

/-- Witness for C3: the blocked requester is denied with the fixed reason on
the enhanced endpoint, and the basic endpoint's answer is unchanged when the
RTBF block (and the budget store) is dropped. -/
theorem rtbf_short_circuit_enhanced_only_witness :
    request_data_access_enhanced blockedServices 0 blockedRequest "admin" =
        (⟨"DENY", RTBF_DENY_REASON, 1⟩, blockedServices) ∧
      request_data_access blockedServices 0 blockedRequest =
        request_data_access ⟨initialConsents 0, initBudgetState,
          initRtbfState⟩ 0 blockedRequest :=
  ⟨rtbf_short_circuit_enhanced_only.1 blockedServices 0 blockedRequest
      "admin" (by decide),
    rtbf_short_circuit_enhanced_only.2 blockedServices
      ⟨initialConsents 0, initBudgetState, initRtbfState⟩ 0 blockedRequest
      rfl⟩

/-! ## C4 — budget invariant and deny frame -/

theorem budgetInv_fresh (now : ℚ) : BudgetInv (freshAccount now) := by
  constructor <;> norm_num [freshAccount, DEFAULT_EPSILON_BUDGET]

theorem budgetInv_custom (now eps : ℚ) (h : 0 ≤ eps) (reset_hours : ℕ) :
    BudgetInv (customAccount now eps reset_hours) :=
  ⟨h, le_refl _⟩

theorem budgetInv_roll (now : ℚ) {b : BudgetAccount} (h : BudgetInv b) :
    BudgetInv (rollIfElapsed now b) := by
  unfold rollIfElapsed
  split
  · exact ⟨le_trans h.1 h.2, le_refl _⟩
  · exact h

theorem budgetInv_consume (now cost : ℚ) (hc : 0 ≤ cost) {b : BudgetAccount}
    (h : BudgetInv b) : BudgetInv (consumeOnAccount now cost b).2 := by
  unfold consumeOnAccount
  split
  · exact h
  · rename_i hge
    have hle : cost ≤ b.remaining_budget := not_lt.mp hge
    constructor
    · show (0 : ℚ) ≤ qSub b.remaining_budget cost
      rw [qSub_eq]
      linarith
    · show qSub b.remaining_budget cost ≤ b.total_budget
      rw [qSub_eq]
      have := h.1
      have := h.2
      linarith

theorem foldl_budgetOps_inv (ops : List BudgetOp) :
    ∀ acc : Option BudgetAccount,
      (∀ op ∈ ops, legalBudgetOp op = true) →
      (∀ b, acc = some b → BudgetInv b) →
      ∀ b, ops.foldl applyBudgetOp acc = some b → BudgetInv b := by
  induction ops with
  | nil =>
      intro acc _ hacc b hb
      exact hacc b (by simpa using hb)
  | cons op tl ih =>
      intro acc hops hacc b hb
      simp only [List.foldl_cons] at hb
      refine ih (applyBudgetOp acc op)
        (fun o ho => hops o (List.mem_cons_of_mem _ ho)) ?_ b hb
      intro b' hb'
      have hop := hops op (List.mem_cons_self _ _)
      have hbase : ∀ now : ℚ, BudgetInv ((acc.getD (freshAccount now))) := by
        intro now
        cases acc with
        | none => simpa using budgetInv_fresh now
        | some b0 => simpa using hacc b0 rfl
      cases op with
      | touch now =>
          simp only [applyBudgetOp, Option.some_inj] at hb'
          exact hb' ▸ budgetInv_roll now (hbase now)
      | consume now cost =>
          simp only [applyBudgetOp, Option.some_inj] at hb'
          have hc : (0 : ℚ) ≤ cost := by
            simpa [legalBudgetOp] using hop
          exact hb' ▸
            budgetInv_consume now cost hc (budgetInv_roll now (hbase now))
      | setCustom now eps reset_hours =>
          simp only [applyBudgetOp, Option.some_inj] at hb'
          have he : (0 : ℚ) ≤ eps := by
            simpa [legalBudgetOp] using hop
          exact hb' ▸ budgetInv_custom now eps he reset_hours

/-- C4: after any sequence of budget operations with non-negative costs and
non-negative custom budgets, `0 ≤ remaining ≤ total` holds for the resulting
account; and a consume step whose cost exceeds the remaining budget denies
and leaves both `remaining_budget` and `total_budget` unchanged. -/
theorem budget_invariant_and_deny_frame :
    (∀ ops : List BudgetOp, (∀ op ∈ ops, legalBudgetOp op = true) →
      ∀ b, runBudgetOps ops = some b → BudgetInv b) ∧
    (∀ (now cost : ℚ) (b : BudgetAccount), b.remaining_budget < cost →
      (consumeOnAccount now cost b).1 = false ∧
        (consumeOnAccount now cost b).2.remaining_budget =
          b.remaining_budget ∧
        (consumeOnAccount now cost b).2.total_budget = b.total_budget) := by
  constructor
  · intro ops hops b hb
    exact foldl_budgetOps_inv ops none hops (fun b h => by simp at h) b hb
  · intro now cost b h
    refine ⟨?_, ?_, ?_⟩ <;> simp [consumeOnAccount, if_pos h]

/-- Witness for C4: a concrete four-operation run (creation, half-budget
consume, custom budget 2, over-budget attempt) and a concrete over-cost
denial. -/
theorem budget_invariant_and_deny_frame_witness :
    BudgetInv
        { total_budget := 2, remaining_budget := mkRat 3 2,
          window_start := 1, queries_count := 1, last_query := some 1,
          alert_level := .normal, custom_reset_hours := some 48 } ∧
      ((consumeOnAccount 0 2 (freshAccount 0)).1 = false ∧
        (consumeOnAccount 0 2 (freshAccount 0)).2.remaining_budget =
          (freshAccount 0).remaining_budget ∧
        (consumeOnAccount 0 2 (freshAccount 0)).2.total_budget =
          (freshAccount 0).total_budget) :=
  ⟨budget_invariant_and_deny_frame.1
      [BudgetOp.touch 0, BudgetOp.consume 0 (mkRat 1 2),
        BudgetOp.setCustom 1 2 48, BudgetOp.consume 1 (mkRat 1 2)]
      (by decide) _ (by decide),
    budget_invariant_and_deny_frame.2 0 2 (freshAccount 0) (by decide)⟩

/-! ## C5 — the frame of a denied check-and-consume call -/

/-- C5 counterexample: a denied call (requester unblocked, cost 1 against
remaining 1/2) flips the stored `alert_level` from `"normal"` to
`"exhausted"` and appends a record to the query-history store, so the claim
that nothing but the window roll changes is false. -/
theorem denied_call_mutates_alert_and_history :
    dictGet halfBudgetState.blocked_requesters "requester_3" = none ∧
      (dictGet halfBudgetState.budgets "subject_3").map
        (fun b => b.alert_level) = some .normal ∧
      deniedCall.1.allowed = false ∧
      (dictGet deniedCall.2.budgets "subject_3").map
        (fun b => b.alert_level) = some .exhausted ∧
      (dictGet deniedCall.2.query_history "subject_3").map List.length =
        some 1 ∧
      dictGet halfBudgetState.query_history "subject_3" = none := by
  decide

/-- C5 (amended): a denied call leaves every account field except
`alert_level` as the window roll left it (in particular `remaining_budget`,
`queries_count`, `last_query`, `window_start` are unchanged), touches no
other subject's account or history and no requester block, but does set
`alert_level := "exhausted"` and append one denied entry to the subject's
query history. -/
theorem denied_call_frame (now : ℚ) (st : BudgetState)
    (subject requester qt ds p : String) (n : ℕ) (ln : ℚ)
    (hblock : dictGet st.blocked_requesters requester = none)
    (hcost :
      (rollIfElapsed now
        ((dictGet st.budgets subject).getD (freshAccount now))).remaining_budget
        < calculate_query_cost qt ds n ln) :
    (check_and_consume_budget now st subject requester qt ds n ln
        p).1.allowed = false ∧
      (check_and_consume_budget now st subject requester qt ds n ln
        p).1.budget_remaining =
        (rollIfElapsed now ((dictGet st.budgets subject).getD
          (freshAccount now))).remaining_budget ∧
      (check_and_consume_budget now st subject requester qt ds n ln
        p).1.alert_level = some AlertLevel.exhausted ∧
      dictGet (check_and_consume_budget now st subject requester qt ds n ln
        p).2.budgets subject =
        some { rollIfElapsed now ((dictGet st.budgets subject).getD
          (freshAccount now)) with alert_level := .exhausted } ∧
      (∀ s, s ≠ subject →
        dictGet (check_and_consume_budget now st subject requester qt ds n
          ln p).2.budgets s = dictGet st.budgets s) ∧
      (check_and_consume_budget now st subject requester qt ds n ln
        p).2.blocked_requesters = st.blocked_requesters ∧
      (∀ s, s ≠ subject →
        dictGet (check_and_consume_budget now st subject requester qt ds n
          ln p).2.query_history s = dictGet st.query_history s) ∧
      dictGet (check_and_consume_budget now st subject requester qt ds n ln
        p).2.query_history subject =
        some (capLast1000 (((dictGet st.query_history subject).getD []) ++
          [⟨now, requester, calculate_query_cost qt ds n ln, false,
            "Budget exhausted", p⟩])) := by
  have hden : (consumeOnAccount now (calculate_query_cost qt ds n ln)
      (rollIfElapsed now ((dictGet st.budgets subject).getD
        (freshAccount now)))) =
      (false, { rollIfElapsed now ((dictGet st.budgets subject).getD
        (freshAccount now)) with alert_level := .exhausted }) := by
    rw [consumeOnAccount, if_pos hcost]
  simp only [check_and_consume_budget,
    check_and_consume_budget.checkAfterBlock, hblock, getOrCreateBudget,
    logQuery, hden, Bool.false_eq_true, if_false]
  refine ⟨trivial, trivial, trivial, ?_, ?_, trivial, ?_, ?_⟩
  · exact dictGet_dictSet_same _ _ _
  · intro s hs
    rw [dictGet_dictSet_other _ _ _ _ (Ne.symm hs),
      dictGet_dictSet_other _ _ _ _ (Ne.symm hs)]
  · intro s hs
    exact dictGet_dictSet_other _ _ _ _ (Ne.symm hs)
  · exact dictGet_dictSet_same _ _ _

/-- Witness for C5 at the concrete denied call. -/
theorem denied_call_frame_witness :
    deniedCall.1.allowed = false ∧
      deniedCall.1.alert_level = some AlertLevel.exhausted ∧
      dictGet deniedCall.2.budgets "subject_3" =
        some { rollIfElapsed 0 ((dictGet halfBudgetState.budgets
          "subject_3").getD (freshAccount 0)) with
            alert_level := .exhausted } :=
  ⟨(denied_call_frame 0 halfBudgetState "subject_3" "requester_3" "raw"
      "high" "analytics" 1 0 (by decide) (by decide)).1,
    (denied_call_frame 0 halfBudgetState "subject_3" "requester_3" "raw"
      "high" "analytics" 1 0 (by decide) (by decide)).2.2.1,
    (denied_call_frame 0 halfBudgetState "subject_3" "requester_3" "raw"
      "high" "analytics" 1 0 (by decide) (by decide)).2.2.2.1⟩

/-! ## C10 — `reset_hours` is recorded but never consulted -/

/-- C10: `set_custom_budget` stores the supplied `reset_hours` in the
account, yet the lazy roll uses the fixed 24-hour constant: for any
recorded `reset_hours`, the window rolls exactly when more than 24 hours
have passed since `window_start`. -/
theorem custom_reset_hours_recorded_not_consulted (now t eps : ℚ)
    (reset_hours : ℕ) (st : BudgetState) (subject : String) :
    dictGet (set_custom_budget t st subject eps reset_hours).budgets
        subject = some (customAccount t eps reset_hours) ∧
      (customAccount t eps reset_hours).custom_reset_hours =
        some reset_hours ∧
      rollIfElapsed now (customAccount t eps reset_hours) =
        (if t + BUDGET_RESET_HOURS < now then
          { customAccount t eps reset_hours with window_start := now }
        else customAccount t eps reset_hours) ∧
      (rollIfElapsed now (customAccount t eps reset_hours) =
          customAccount t eps reset_hours ↔
        now ≤ t + BUDGET_RESET_HOURS) := by
  have hroll : rollIfElapsed now (customAccount t eps reset_hours) =
      (if t + BUDGET_RESET_HOURS < now then
        { customAccount t eps reset_hours with window_start := now }
      else customAccount t eps reset_hours) := by
    rw [rollIfElapsed]
    have : qAdd (customAccount t eps reset_hours).window_start
        BUDGET_RESET_HOURS = t + BUDGET_RESET_HOURS := by
      rw [qAdd_eq]
      rfl
    rw [this]
    split <;> rfl
  refine ⟨dictGet_dictSet_same _ _ _, rfl, hroll, ?_⟩
  constructor
  · intro heq
    by_contra hgt
    push_neg at hgt
    rw [hroll, if_pos hgt] at heq
    have hws : now = t := congrArg BudgetAccount.window_start heq
    rw [BUDGET_RESET_HOURS] at hgt
    linarith
  · intro hle
    rw [hroll, if_neg (not_lt.mpr hle)]

/-! ## C6 — token use-count invariant and self-destruction -/

theorem dictGet_eq_none_of_not_mem_keys {α : Type} {m : List (String × α)}
    {k : String} (h : k ∉ m.map Prod.fst) : dictGet m k = none := by
  induction m with
  | nil => rfl
  | cons hd tl ih =>
      have h1 : ¬hd.1 = k := by
        intro e
        exact h (by simp [e])
      rw [dictGet, if_neg h1]
      exact ih (fun hk => h (List.mem_cons_of_mem _ hk))

theorem mem_keys_dictSet {α : Type} {m : List (String × α)} {k a : String}
    {v : α} (h : a ∈ (dictSet m k v).map Prod.fst) :
    a = k ∨ a ∈ m.map Prod.fst := by
  rcases List.mem_map.mp h with ⟨p, hp, hpa⟩
  rcases mem_of_mem_dictSet hp with h' | h'
  · left
    rw [← hpa, h']
  · right
    exact hpa ▸ List.mem_map_of_mem _ h'

theorem keys_nodup_dictSet {α : Type} {m : List (String × α)} {k : String}
    {v : α} (h : (m.map Prod.fst).Nodup) :
    ((dictSet m k v).map Prod.fst).Nodup := by
  induction m with
  | nil => simp [dictSet]
  | cons hd tl ih =>
      rw [List.map_cons, List.nodup_cons] at h
      by_cases hk : hd.1 = k
      · rw [dictSet, if_pos hk, List.map_cons, List.nodup_cons]
        exact ⟨hk ▸ h.1, h.2⟩
      · rw [dictSet, if_neg hk, List.map_cons, List.nodup_cons]
        refine ⟨?_, ih h.2⟩
        intro hmem
        rcases mem_keys_dictSet hmem with h' | h'
        · exact hk h'
        · exact h.1 h'

theorem dictGet_dictErase_same_of_nodup {α : Type} {m : List (String × α)}
    {k : String} (h : (m.map Prod.fst).Nodup) :
    dictGet (dictErase m k) k = none := by
  induction m with
  | nil => rfl
  | cons hd tl ih =>
      rw [List.map_cons, List.nodup_cons] at h
      by_cases hk : hd.1 = k
      · rw [dictErase, if_pos hk]
        exact dictGet_eq_none_of_not_mem_keys (hk ▸ h.1)
      · rw [dictErase, if_neg hk, dictGet, if_neg hk]
        exact ih h.2

theorem dictGet_destroyToken_self {st : TokenState}
    (hnd : (st.active_tokens.map Prod.fst).Nodup) (token_id : String) :
    dictGet (destroyToken st token_id).active_tokens token_id = none := by
  unfold destroyToken
  split
  · rename_i heq
    exact heq
  · exact dictGet_dictErase_same_of_nodup hnd

theorem mem_revoked_destroyToken {st : TokenState} {token_id : String}
    {d : TokenData} (hget : dictGet st.active_tokens token_id = some d) :
    token_id ∈ (destroyToken st token_id).revoked_tokens := by
  rw [destroyToken, hget]
  by_cases hr : token_id ∈ st.revoked_tokens
  · rw [if_pos hr]
    exact hr
  · rw [if_neg hr]
    exact List.mem_append_right _ (List.mem_singleton.mpr rfl)

theorem tokenInv_destroy {st : TokenState} (h : TokenInv st)
    (token_id : String) : TokenInv (destroyToken st token_id) := by
  unfold destroyToken
  split
  · exact h
  · intro p hp
    exact h p (mem_of_mem_dictErase hp)

theorem tokenInv_foldl_destroy (ids : List String) :
    ∀ st : TokenState, TokenInv st → TokenInv (ids.foldl destroyToken st) := by
  induction ids with
  | nil => intro st h; exact h
  | cons id tl ih =>
      intro st h
      exact ih _ (tokenInv_destroy h id)

theorem tokenInv_apply {st : TokenState} (h : TokenInv st) (op : TokenOp) :
    TokenInv (applyTokenOp st op) := by
  cases op with
  | issue now tid uid task ttype ttl uses scope =>
      intro p hp
      rcases mem_of_mem_dictSet hp with h' | h'
      · rw [h']
        exact Nat.zero_le _
      · exact h p h'
  | validate now tid =>
      show TokenInv (validate_and_consume now st tid).2
      unfold validate_and_consume
      split
      · exact h
      · split
        · exact h
        · rename_i token_data heq
          split
          · exact tokenInv_destroy h tid
          · split
            · exact tokenInv_destroy h tid
            · rename_i hexp huse
              have hlt : token_data.current_uses < token_data.max_uses :=
                Nat.lt_of_not_le huse
              have hinv' : TokenInv
                  { st with
                    active_tokens := dictSet st.active_tokens tid
                      ({ token_data with
                          current_uses := token_data.current_uses + 1
                          access_log := token_data.access_log ++
                            [(⟨now, token_data.max_uses -
                              (token_data.current_uses + 1)⟩ :
                              TokenAccessEntry)] }) } := by
                intro p hp
                rcases mem_of_mem_dictSet hp with h' | h'
                · rw [h']
                  exact Nat.succ_le_of_lt hlt
                · exact h p h'
              dsimp only
              split
              · exact tokenInv_destroy hinv' tid
              · exact hinv'
  | complete task =>
      exact tokenInv_foldl_destroy _ st h

theorem tokenInv_run (ops : List TokenOp) : TokenInv (runTokenOps ops) := by
  unfold runTokenOps
  have : ∀ (l : List TokenOp) (st : TokenState), TokenInv st →
      TokenInv (l.foldl applyTokenOp st) := by
    intro l
    induction l with
    | nil => intro st h; exact h
    | cons op tl ih => intro st h; exact ih _ (tokenInv_apply h op)
  refine this ops initTokenState ?_
  intro p hp
  exact absurd hp (List.not_mem_nil p)

/-- C6: (i) `current_uses ≤ max_uses` holds for every active token in every
reachable store; (ii) with distinct stored ids, the call that brings
`current_uses` up to `max_uses` itself returns `valid = true`, reports
`destroyed = true`, removes the token from the active set and revokes it;
(iii) any call on a revoked id reports destroyed without touching state;
(iv) Scenario D: a `max_uses = 1` token validates as consumed-and-destroyed
once, then as destroyed-and-invalid. -/
theorem token_lifecycle :
    (∀ ops : List TokenOp, TokenInv (runTokenOps ops)) ∧
      (∀ (now : ℚ) (st : TokenState) (tid : String) (d : TokenData),
        (st.active_tokens.map Prod.fst).Nodup →
        tid ∉ st.revoked_tokens →
        dictGet st.active_tokens tid = some d →
        ¬d.expires_at < now →
        d.current_uses + 1 = d.max_uses →
        (validate_and_consume now st tid).1.valid = true ∧
          (validate_and_consume now st tid).1.destroyed = true ∧
          dictGet (validate_and_consume now st tid).2.active_tokens tid =
            none ∧
          tid ∈ (validate_and_consume now st tid).2.revoked_tokens) ∧
      (∀ (now : ℚ) (st : TokenState) (tid : String),
        tid ∈ st.revoked_tokens →
        validate_and_consume now st tid =
          (⟨false, "Token has been destroyed (revoked)", true⟩, st)) ∧
      (scenD_v1.1.valid = true ∧ scenD_v1.1.destroyed = true ∧
        scenD_v2.1.valid = false ∧ scenD_v2.1.destroyed = true) := by
  refine ⟨tokenInv_run, ?_, ?_, by decide⟩
  · intro now st tid d hnd hrev hget hexp hmax
    have hlt : d.current_uses < d.max_uses := hmax ▸ Nat.lt_succ_self _
    have hnle : ¬d.max_uses ≤ d.current_uses := Nat.not_le.mpr hlt
    have hrem : d.max_uses - (d.current_uses + 1) = 0 := by
      rw [hmax]
      exact Nat.sub_self _
    rw [validate_and_consume, if_neg hrev, hget]
    simp only [if_neg hexp, if_neg hnle, hrem, eq_self_iff_true, if_true]
    refine ⟨trivial, trivial, ?_, ?_⟩
    · exact dictGet_destroyToken_self (keys_nodup_dictSet hnd) tid
    · exact mem_revoked_destroyToken (dictGet_dictSet_same _ _ _)
  · intro now st tid h
    rw [validate_and_consume, if_pos h]

/-- Witness for C6: the Scenario D token's single consuming call and a call
on its revoked id. -/
theorem token_lifecycle_witness :
    ((validate_and_consume 1 scenD_state "token_1").1.valid = true ∧
      (validate_and_consume 1 scenD_state "token_1").1.destroyed = true ∧
      dictGet (validate_and_consume 1 scenD_state
        "token_1").2.active_tokens "token_1" = none ∧
      "token_1" ∈ (validate_and_consume 1 scenD_state
        "token_1").2.revoked_tokens) ∧
    validate_and_consume 2 scenD_v1.2 "token_1" =
      (⟨false, "Token has been destroyed (revoked)", true⟩, scenD_v1.2) :=
  ⟨token_lifecycle.2.1 1 scenD_state "token_1"
      ⟨"user_1", "task_1", "inference", 0, 300, 1, 0, ["*"], "active", []⟩
      (by decide) (by decide) (by decide) (by decide) (by decide),
    token_lifecycle.2.2.1 2 scenD_v1.2 "token_1" (by decide)⟩

/-! ## C7 — RTBF blocks before any purge handler runs -/

theorem execute_purge_events_handlers (scope : Option (List String))
    (outcomes : DataLayer → HandlerOutcome) :
    ∀ e ∈ (execute_purge scope outcomes).2, ∃ l, e = PurgeEvent.handlerRun l := by
  unfold execute_purge
  have : ∀ (layers : List DataLayer)
      (acc : List (String × LayerResult) × List PurgeEvent),
      (∀ e ∈ acc.2, ∃ l, e = PurgeEvent.handlerRun l) →
      ∀ e ∈ (layers.foldl
        (fun acc layer =>
          if layerSkipped scope layer then
            (acc.1 ++ [(layerValue layer, ⟨"skipped", 0, none⟩)], acc.2)
          else
            match outcomes layer with
            | .ok n =>
                (acc.1 ++ [(layerValue layer, ⟨"completed", n, none⟩)],
                  acc.2 ++ [.handlerRun layer])
            | .err e =>
                (acc.1 ++ [(layerValue layer, ⟨"failed", 0, some e⟩)],
                  acc.2 ++ [.handlerRun layer])) acc).2,
        ∃ l, e = PurgeEvent.handlerRun l := by
    intro layers
    induction layers with
    | nil => intro acc hacc e he; exact hacc e he
    | cons layer tl ih =>
        intro acc hacc e he
        refine ih _ ?_ e he
        intro e' he'
        dsimp only at he'
        by_cases hskip : layerSkipped scope layer
        · rw [if_pos hskip] at he'
          exact hacc e' he'
        · rw [if_neg hskip] at he'
          cases houtcome : outcomes layer with
          | ok n =>
              rw [houtcome] at he'
              rcases List.mem_append.mp he' with h' | h'
              · exact hacc e' h'
              · exact ⟨layer, (List.mem_singleton.mp h')⟩
          | err msg =>
              rw [houtcome] at he'
              rcases List.mem_append.mp he' with h' | h'
              · exact hacc e' h'
              · exact ⟨layer, (List.mem_singleton.mp h')⟩
  intro e he
  exact this layerOrder ([], []) (by intro e' he'; cases he') e he

/-- C7: in every `trigger_rtbf` call — for any handler outcomes, including
all handlers failing — the block-set insertion is the first event of the
side-effect trace, everything after it is a handler invocation, the subject
is blocked in the resulting state, and previously blocked subjects stay
blocked. -/
theorem trigger_rtbf_blocks_first (now : ℚ) (st : RtbfState)
    (request_id subject_id requested_by reason : String)
    (scope : Option (List String)) (verification : Bool)
    (outcomes : DataLayer → HandlerOutcome) :
    (trigger_rtbf now st request_id subject_id requested_by reason scope
        verification outcomes).2.2.head? =
        some (PurgeEvent.block subject_id) ∧
      (∀ e ∈ (trigger_rtbf now st request_id subject_id requested_by reason
          scope verification outcomes).2.2.tail,
        ∃ l, e = PurgeEvent.handlerRun l) ∧
      is_subject_blocked (trigger_rtbf now st request_id subject_id
        requested_by reason scope verification outcomes).2.1 subject_id =
        true ∧
      (∀ s, is_subject_blocked st s = true →
        is_subject_blocked (trigger_rtbf now st request_id subject_id
          requested_by reason scope verification outcomes).2.1 s = true) := by
  unfold trigger_rtbf
  dsimp only
  split <;>
  · refine ⟨rfl, ?_, ?_, ?_⟩
    · intro e he
      exact execute_purge_events_handlers scope outcomes e he
    · show (dictGet (dictSet st.blocked_subjects subject_id now)
        subject_id).isSome = true
      rw [dictGet_dictSet_same]
      rfl
    · intro s hs
      show (dictGet (dictSet st.blocked_subjects subject_id now) s).isSome =
        true
      by_cases hsub : s = subject_id
      · rw [hsub, dictGet_dictSet_same]
        rfl
      · rw [dictGet_dictSet_other _ _ _ _ (fun e => hsub (Eq.symm e))]
        exact hs

/-- Witness for C7: an all-handlers-fail trigger still blocks the subject,
emits the block event first, and keeps a previously blocked subject
blocked. -/
theorem trigger_rtbf_blocks_first_witness :
    (trigger_rtbf 0 rtbfPreState "R1" "subject_x" "admin"
        "consent_withdrawal" none false allFailOutcomes).2.2.head? =
        some (PurgeEvent.block "subject_x") ∧
      is_subject_blocked (trigger_rtbf 0 rtbfPreState "R1" "subject_x"
        "admin" "consent_withdrawal" none false
        allFailOutcomes).2.1 "subject_x" = true ∧
      is_subject_blocked (trigger_rtbf 0 rtbfPreState "R1" "subject_x"
        "admin" "consent_withdrawal" none false
        allFailOutcomes).2.1 "old_subject" = true :=
  ⟨(trigger_rtbf_blocks_first 0 rtbfPreState "R1" "subject_x" "admin"
      "consent_withdrawal" none false allFailOutcomes).1,
    (trigger_rtbf_blocks_first 0 rtbfPreState "R1" "subject_x" "admin"
      "consent_withdrawal" none false allFailOutcomes).2.2.1,
    (trigger_rtbf_blocks_first 0 rtbfPreState "R1" "subject_x" "admin"
      "consent_withdrawal" none false allFailOutcomes).2.2.2 "old_subject"
      (by decide)⟩

/-! ## C8 — the GLOBAL/empty substitution pair -/

/-- C8 counterexample: the substituted pair is the fixed `[EU, INDIA]`, yet
UK's strictness score 0.93 exceeds INDIA's 0.85, so `{EU, INDIA}` is not
the set of the two highest-scoring jurisdictions of the table. -/
theorem global_substitution_not_two_strictest :
    (get_strictest_requirements []).jurisdictions =
        [Jurisdiction.EU, Jurisdiction.INDIA] ∧
      (get_strictest_requirements [Jurisdiction.GLOBAL]).jurisdictions =
        [Jurisdiction.EU, Jurisdiction.INDIA] ∧
      lawScore Jurisdiction.UK = mkRat 93 100 ∧
      lawScore Jurisdiction.INDIA = mkRat 85 100 ∧
      ¬IsTwoStrictest Jurisdiction.EU Jurisdiction.INDIA := by
  refine ⟨by decide, by decide, by decide, by decide, ?_⟩
  unfold IsTwoStrictest
  decide

/-- C8 (amended): whenever `GLOBAL` is present or the input list is empty,
the merge is computed over exactly the fixed pair `[EU, INDIA]` substituted
for the input (a pair that is not the two highest-scoring, since UK outranks
INDIA). -/
theorem global_substitution_fixed_pair (js : List Jurisdiction)
    (h : Jurisdiction.GLOBAL ∈ js ∨ js = []) :
    get_strictest_requirements js =
        get_strictest_requirements [Jurisdiction.EU, Jurisdiction.INDIA] ∧
      (get_strictest_requirements js).jurisdictions =
        [Jurisdiction.EU, Jurisdiction.INDIA] := by
  have heq : get_strictest_requirements js =
      get_strictest_requirements [Jurisdiction.EU, Jurisdiction.INDIA] := by
    unfold get_strictest_requirements
    rw [if_pos h, if_neg (by decide :
      ¬(Jurisdiction.GLOBAL ∈ [Jurisdiction.EU, Jurisdiction.INDIA] ∨
        ([Jurisdiction.EU, Jurisdiction.INDIA] : List Jurisdiction) = []))]
  refine ⟨heq, ?_⟩
  rw [heq]
  decide

/-- Witness for C8 at the singleton `[GLOBAL]` input. -/
theorem global_substitution_fixed_pair_witness :
    get_strictest_requirements [Jurisdiction.GLOBAL] =
        get_strictest_requirements [Jurisdiction.EU, Jurisdiction.INDIA] ∧
      (get_strictest_requirements [Jurisdiction.GLOBAL]).jurisdictions =
        [Jurisdiction.EU, Jurisdiction.INDIA] :=
  global_substitution_fixed_pair [Jurisdiction.GLOBAL] (by decide)

/-! ## C9 — monotonicity of the strictest-requirement merge -/

theorem reqLe_refl (a : LawRequirements) : ReqLe a a := by
  refine ⟨?_, ?_, ?_, ?_, ?_, ?_, ?_, ?_, ?_, ?_⟩ <;> exact id

theorem reqLe_mergeRequirements (a r : LawRequirements) :
    ReqLe a (mergeRequirements a r) := by
  refine ⟨?_, ?_, ?_, ?_, ?_, ?_, ?_, ?_, ?_, ?_⟩ <;>
    (intro h; simp [mergeRequirements, h])

theorem mergeStep_score_le (acc : MergeAcc) (j : Jurisdiction) :
    acc.score ≤ (mergeStep acc j).score := by
  unfold mergeStep
  split
  · exact le_refl _
  · exact le_max_left _ _

theorem mergeStep_reqLe (acc : MergeAcc) (j : Jurisdiction) :
    ReqLe acc.req (mergeStep acc j).req := by
  unfold mergeStep
  split
  · exact reqLe_refl _
  · exact reqLe_mergeRequirements _ _

theorem lawScore_le (j : Jurisdiction) : lawScore j ≤ mkRat 95 100 := by
  cases j <;> decide

theorem foldl_mergeStep_score_bounded (js : List Jurisdiction) :
    ∀ acc : MergeAcc, acc.score ≤ mkRat 95 100 →
      (js.foldl mergeStep acc).score ≤ mkRat 95 100 := by
  induction js with
  | nil => intro acc h; exact h
  | cons j tl ih =>
      intro acc h
      refine ih _ ?_
      unfold mergeStep
      cases heq : PRIVACY_LAWS j with
      | none => exact h
      | some law =>
          have : law.strictness_score ≤ mkRat 95 100 := by
            have := lawScore_le j
            rwa [lawScore, heq, Option.map_some', Option.getD_some] at this
          exact max_le h this

theorem reqLe_all_true (a : LawRequirements) :
    ReqLe a ⟨true, true, true, true, some 72, true, true, true, true,
      "strict", true, true⟩ := by
  refine ⟨?_, ?_, ?_, ?_, ?_, ?_, ?_, ?_, ?_, ?_⟩ <;> (intro _; rfl)

/-- C9 (amended): for every NONEMPTY jurisdiction list, appending a
jurisdiction can only raise (never lower) the merged strictness score, and
merged boolean requirements only flip false→true.  (The claim fails for the
empty list, which is substituted by the strict `[EU, INDIA]` pair.) -/
theorem merge_monotone_nonempty (J : List Jurisdiction) (j : Jurisdiction)
    (hne : J ≠ []) :
    (get_strictest_requirements J).strictness_score ≤
        (get_strictest_requirements (J ++ [j])).strictness_score ∧
      ReqLe (get_strictest_requirements J).merged_requirements
        (get_strictest_requirements (J ++ [j])).merged_requirements := by
  by_cases hG : Jurisdiction.GLOBAL ∈ J
  · have hG' : Jurisdiction.GLOBAL ∈ J ++ [j] := List.mem_append_left _ hG
    unfold get_strictest_requirements
    rw [if_pos (Or.inl hG), if_pos (Or.inl hG')]
    exact ⟨le_refl _, reqLe_refl _⟩
  · have hcondL : ¬(Jurisdiction.GLOBAL ∈ J ∨ J = []) := by
      rintro (h | h)
      · exact hG h
      · exact hne h
    by_cases hj : j = Jurisdiction.GLOBAL
    · subst hj
      have hcondR : Jurisdiction.GLOBAL ∈ J ++ [Jurisdiction.GLOBAL] ∨
          J ++ [Jurisdiction.GLOBAL] = [] :=
        Or.inl (List.mem_append_right _ (List.mem_singleton.mpr rfl))
      unfold get_strictest_requirements
      rw [if_neg hcondL, if_pos hcondR]
      dsimp only
      constructor
      · have hrhs : (([Jurisdiction.EU, Jurisdiction.INDIA].foldl mergeStep
            ⟨initMerged, [], 0⟩).score) = mkRat 95 100 := by decide
        show (J.foldl mergeStep ⟨initMerged, [], 0⟩).score ≤ _
        rw [hrhs]
        exact foldl_mergeStep_score_bounded J _ (by decide)
      · have hrhs : (([Jurisdiction.EU, Jurisdiction.INDIA].foldl mergeStep
            ⟨initMerged, [], 0⟩).req) =
            ⟨true, true, true, true, some 72, true, true, true, true,
              "strict", true, true⟩ := by decide
        show ReqLe (J.foldl mergeStep ⟨initMerged, [], 0⟩).req _
        rw [hrhs]
        exact reqLe_all_true _
    · have hcondR : ¬(Jurisdiction.GLOBAL ∈ J ++ [j] ∨ J ++ [j] = []) := by
        rintro (h | h)
        · rcases List.mem_append.mp h with h' | h'
          · exact hG h'
          · exact hj (List.mem_singleton.mp h').symm
        · exact hne (List.append_eq_nil.mp h).1
      unfold get_strictest_requirements
      rw [if_neg hcondL, if_neg hcondR]
      show (J.foldl mergeStep ⟨initMerged, [], 0⟩).score ≤
          ((J ++ [j]).foldl mergeStep ⟨initMerged, [], 0⟩).score ∧
        ReqLe (J.foldl mergeStep ⟨initMerged, [], 0⟩).req
          ((J ++ [j]).foldl mergeStep ⟨initMerged, [], 0⟩).req
      rw [List.foldl_append, List.foldl_cons, List.foldl_nil]
      exact ⟨mergeStep_score_le _ j, mergeStep_reqLe _ j⟩

/-- C9 counterexample: with `J = []` and `j = SINGAPORE`, the merged score
drops from 0.95 (the substituted `[EU, INDIA]` pair) to 0.70, and the merged
`explicit_consent_for_sensitive` flips true→false — adding a jurisdiction is
not monotone from the empty list. -/
theorem merge_not_monotone_from_empty :
    (get_strictest_requirements ([] : List Jurisdiction)).strictness_score =
        mkRat 95 100 ∧
      (get_strictest_requirements
        [Jurisdiction.SINGAPORE]).strictness_score = mkRat 70 100 ∧
      (mkRat 70 100 : ℚ) < mkRat 95 100 ∧
      (get_strictest_requirements
        ([] : List Jurisdiction)).merged_requirements.explicit_consent_for_sensitive
        = true ∧
      (get_strictest_requirements
        [Jurisdiction.SINGAPORE]).merged_requirements.explicit_consent_for_sensitive
        = false := by
  decide

/-- Witness for C9: appending SINGAPORE to the nonempty `[US_CA]`. -/
theorem merge_monotone_nonempty_witness :
    (get_strictest_requirements [Jurisdiction.US_CA]).strictness_score ≤
        (get_strictest_requirements
          [Jurisdiction.US_CA, Jurisdiction.SINGAPORE]).strictness_score ∧
      ReqLe (get_strictest_requirements
          [Jurisdiction.US_CA]).merged_requirements
        (get_strictest_requirements
          [Jurisdiction.US_CA, Jurisdiction.SINGAPORE]).merged_requirements :=
  merge_monotone_nonempty [Jurisdiction.US_CA] Jurisdiction.SINGAPORE
    (by decide)

end Privy
